import Mathlib

/-!
# Standby telemetry: DHT20 sensor reader, sampler tick and standby screen

A shallow embedding of

* `src/main/boards/common/dht20_sensor.h` (`DHT20Sensor`),
* `src/main/boards/bread-compact-wifi/compact_wifi_board.cc`
  (`CompactWifiBoard::OnDeviceStateChanged`, `CompactWifiBoard::UpdateStandbyScreen`),
* `src/main/display/standby_screen.cc` (`StandbyScreen`).

Conventions of the embedding.

* A C `float` is a `CFloat`, an IEEE 754 binary32 value given by its bits: signed
  zeros, subnormal and normal numbers, infinities and NaN.  The four operations and
  the conversion from `uint32_t` round to nearest, ties to even; every NaN result is
  the quiet NaN.
* `uint8_t` is `Fin 256`; `uint32_t` results are reduced modulo `2 ^ 32`.
* Member functions take the object as first argument and return the object after the
  call together with what the call returns or sends out.  Out-parameters (`float*`)
  are passed as the content of the pointee before the call and returned as the
  content after the call.
* Logging (`ESP_LOGx`) and the 80 ms `usleep` have no effect on the state and are left
  out.
-/

namespace Standby

/-! ## The type `float` -/

/-- The power `2 ^ e` as a rational, for an integer exponent. -/
def pow2 (e : Int) : ℚ :=
  if 0 ≤ e then ((2 ^ e.toNat : Nat) : ℚ) else 1 / ((2 ^ (-e).toNat : Nat) : ℚ)

/-- The integer nearest to `a ≥ 0`, ties to the even one. -/
def rne (a : ℚ) : Nat :=
  let f : Nat := a.num.toNat / a.den
  let r : ℚ := a - f
  if r < 1 / 2 then f else if 1 / 2 < r then f + 1 else if f % 2 = 0 then f else f + 1

/-- The auxiliary recursion of `ilog2`. -/
def ilog2Aux : Nat → Nat → Nat
  | 0, _ => 0
  | fuel + 1, n => if n < 2 then 0 else ilog2Aux fuel (n / 2) + 1

/-- The exponent `⌊log₂ n⌋` of a positive natural number (`0` for `0`). -/
def ilog2 (n : Nat) : Nat := ilog2Aux n n

/-- The exponent `⌊log₂ v⌋` of a positive rational. -/
def floorLog2 (v : ℚ) : Int :=
  let e0 : Int := (ilog2 v.num.toNat : Int) - (ilog2 v.den : Int)
  if pow2 e0 ≤ v then e0 else e0 - 1

/-- A C `float`: an IEEE 754 binary32 value, given by its sign bit and by the 31 bits
of its exponent and fraction fields (`mag`). -/
structure CFloat where
  sign : Bool
  mag : Fin 2147483648
deriving DecidableEq, Repr

namespace CFloat

/-- The exponent field. -/
def expo (x : CFloat) : Nat := x.mag.val / 8388608

/-- The fraction field. -/
def frac (x : CFloat) : Nat := x.mag.val % 8388608

/-- The test `std::isnan`. -/
def isNaN (x : CFloat) : Bool := decide (2139095040 < x.mag.val)

/-- The value is an infinity. -/
def isInf (x : CFloat) : Bool := decide (x.mag.val = 2139095040)

/-- The value is a number (zero, subnormal or normal). -/
def isFinite (x : CFloat) : Bool := decide (x.mag.val < 2139095040)

/-- The magnitude of a finite value. -/
def absRat (x : CFloat) : ℚ :=
  if x.expo = 0 then (x.frac : ℚ) * pow2 (-149)
  else ((8388608 + x.frac : Nat) : ℚ) * pow2 ((x.expo : Int) - 150)

/-- The number a finite value stands for. -/
def toRat (x : CFloat) : ℚ := if x.sign then -x.absRat else x.absRat

/-- The quiet NaN. -/
def nan : CFloat := ⟨false, 2143289344⟩

/-- The infinity of the given sign. -/
def inf (s : Bool) : CFloat := ⟨s, 2139095040⟩

/-- The zero of the given sign. -/
def zero (s : Bool) : CFloat := ⟨s, 0⟩

/-- The exponent and fraction bits of the binary32 value nearest to `v ≥ 0` (ties to
even); values too large become the bits of infinity. -/
def roundMag (v : ℚ) : Fin 2147483648 :=
  if v = 0 then 0
  else
    let e : Int := max (floorLog2 v) (-126)
    let m : Nat := rne (v * pow2 (23 - e))
    let b : Nat := (e + 126).toNat * 8388608 + m
    if h : b < 2139095040 then ⟨b, by omega⟩ else 2139095040

/-- The binary32 value of sign `s` whose magnitude is nearest to `v ≥ 0`. -/
def round (s : Bool) (v : ℚ) : CFloat := ⟨s, roundMag v⟩

/-- The binary32 value nearest to `q`; `0` becomes `+0.0`. -/
def num (q : ℚ) : CFloat := round (decide (q < 0)) |q|

/-- Unary minus. -/
def neg (x : CFloat) : CFloat := ⟨!x.sign, x.mag⟩

/-- The binary32 sum. -/
def add (x y : CFloat) : CFloat :=
  if x.isNaN || y.isNaN then nan
  else if x.isInf then (if y.isInf && (x.sign != y.sign) then nan else x)
  else if y.isInf then y
  else if x.toRat + y.toRat = 0 then zero (x.sign && y.sign)
  else num (x.toRat + y.toRat)

/-- The binary32 difference. -/
def sub (x y : CFloat) : CFloat := add x (neg y)

/-- The binary32 product. -/
def mul (x y : CFloat) : CFloat :=
  if x.isNaN || y.isNaN then nan
  else if x.isInf || y.isInf then
    (if x.mag.val = 0 || y.mag.val = 0 then nan else inf (x.sign != y.sign))
  else round (x.sign != y.sign) (x.absRat * y.absRat)

/-- The binary32 quotient. -/
def div (x y : CFloat) : CFloat :=
  if x.isNaN || y.isNaN then nan
  else if x.isInf then (if y.isInf then nan else inf (x.sign != y.sign))
  else if y.isInf then zero (x.sign != y.sign)
  else if y.mag.val = 0 then (if x.mag.val = 0 then nan else inf (x.sign != y.sign))
  else round (x.sign != y.sign) (x.absRat / y.absRat)

instance : Add CFloat := ⟨add⟩
instance : Sub CFloat := ⟨sub⟩
instance : Mul CFloat := ⟨mul⟩
instance : Div CFloat := ⟨div⟩
instance : Neg CFloat := ⟨neg⟩
instance : NatCast CFloat := ⟨fun n => num n⟩
instance (n : Nat) : OfNat CFloat n := ⟨num n⟩

end CFloat

/-! ## `dht20_sensor.h` -/

/-- An `esp_err_t` status code. -/
abbrev esp_err_t := Int

/-- The success code `ESP_OK`. -/
def ESP_OK : esp_err_t := 0

/-- The buffer `uint8_t data[7]` that `i2c_master_receive` fills. -/
structure Response where
  b0 : Fin 256
  b1 : Fin 256
  b2 : Fin 256
  b3 : Fin 256
  b4 : Fin 256
  b5 : Fin 256
  b6 : Fin 256
deriving DecidableEq, Repr

/-- What the bus does during one `ReadData`: the status returned by
`i2c_master_transmit`, the status returned by `i2c_master_receive`, and the seven
bytes the latter delivers. -/
structure I2cExchange where
  transmit_ret : esp_err_t
  receive_ret : esp_err_t
  data : Response
deriving DecidableEq, Repr

/-- The data members of `class DHT20Sensor` (the device handle is only passed on to the
bus and is not part of the model). -/
structure DHT20Sensor where
  initialized_ : Bool
  temperature_ : CFloat
  humidity_ : CFloat
  temperature_offset_ : CFloat
  humidity_offset_ : CFloat
deriving DecidableEq, Repr

/-- The constructor: all numeric members start at `0.0f`; `initialized_` becomes true
exactly when `i2c_master_bus_add_device` returned `ESP_OK`. -/
def DHT20Sensor.ctor (add_device_ret : esp_err_t) : DHT20Sensor :=
  { initialized_ := decide (add_device_ret = ESP_OK)
    temperature_ := 0
    humidity_ := 0
    temperature_offset_ := 0
    humidity_offset_ := 0 }

/-- Member function `IsInitialized()`. -/
def DHT20Sensor.IsInitialized (s : DHT20Sensor) : Bool := s.initialized_

/-- The `uint32_t raw_humidity` of `ReadData`:
`(data[1] << 12) | (data[2] << 4) | ((data[3] & 0xF0) >> 4)`. -/
def raw_humidity (d : Response) : Nat :=
  ((d.b1.val <<< 12) ||| (d.b2.val <<< 4) ||| ((d.b3.val &&& 0xF0) >>> 4)) % 2 ^ 32

/-- The `uint32_t raw_temperature` of `ReadData`:
`((data[3] & 0x0F) << 16) | (data[4] << 8) | data[5]`. -/
def raw_temperature (d : Response) : Nat :=
  (((d.b3.val &&& 0x0F) <<< 16) ||| (d.b4.val <<< 8) ||| d.b5.val) % 2 ^ 32

/-- The outcome of one call `ReadData(&temperature, &humidity)`: the returned `bool`,
the contents of the two pointees after the call, and the sensor object after the
call. -/
structure ReadResult where
  ret : Bool
  temperature : CFloat
  humidity : CFloat
  sensor : DHT20Sensor
deriving DecidableEq, Repr

/-- Member function `DHT20Sensor::ReadData`.  `t0` and `h0` are the contents of `*temperature` and
`*humidity` before the call. -/
def DHT20Sensor.ReadData (s : DHT20Sensor) (io : I2cExchange) (t0 h0 : CFloat) : ReadResult :=
  if !s.initialized_ then
    { ret := false, temperature := t0, humidity := h0, sensor := s }
  else if io.transmit_ret ≠ ESP_OK then
    { ret := false, temperature := t0, humidity := h0, sensor := s }
  else if io.receive_ret ≠ ESP_OK then
    { ret := false, temperature := t0, humidity := h0, sensor := s }
  else if io.data.b0.val &&& 0x80 ≠ 0 then
    { ret := false, temperature := t0, humidity := h0, sensor := s }
  else
    let humidity : CFloat := ((raw_humidity io.data : CFloat) * 100) / 1048576 + s.humidity_offset_
    let temperature : CFloat :=
      ((raw_temperature io.data : CFloat) * 200) / 1048576 - 50 + s.temperature_offset_
    { ret := true
      temperature := temperature
      humidity := humidity
      sensor := { s with temperature_ := temperature, humidity_ := humidity } }

/-- Member function `DHT20Sensor::GetTemperature`: the returned value and the sensor after the call.
The locals `temp`, `hum` are uninitialised in the source; they are only read after
`ReadData` has written them, so their initial content (here `0`) is never used. -/
def DHT20Sensor.GetTemperature (s : DHT20Sensor) (io : I2cExchange) : CFloat × DHT20Sensor :=
  let r := s.ReadData io 0 0
  if r.ret then (r.temperature, r.sensor) else (r.sensor.temperature_, r.sensor)

/-- Member function `DHT20Sensor::GetHumidity`: the returned value and the sensor after the call. -/
def DHT20Sensor.GetHumidity (s : DHT20Sensor) (io : I2cExchange) : CFloat × DHT20Sensor :=
  let r := s.ReadData io 0 0
  if r.ret then (r.humidity, r.sensor) else (r.sensor.humidity_, r.sensor)

/-- Member function `DHT20Sensor::SetTemperatureOffset`. -/
def DHT20Sensor.SetTemperatureOffset (s : DHT20Sensor) (offset : CFloat) : DHT20Sensor :=
  { s with temperature_offset_ := offset }

/-- Member function `DHT20Sensor::SetHumidityOffset`. -/
def DHT20Sensor.SetHumidityOffset (s : DHT20Sensor) (offset : CFloat) : DHT20Sensor :=
  { s with humidity_offset_ := offset }

/-- Member function `DHT20Sensor::CalibrateTemperature` (a `void` function): the sensor after the
call.  `io` is the bus exchange of the fresh reading taken by `GetTemperature`. -/
def DHT20Sensor.CalibrateTemperature (s : DHT20Sensor) (io : I2cExchange)
    (actual_temp : CFloat) : DHT20Sensor :=
  let p := s.GetTemperature io
  { p.2 with temperature_offset_ := actual_temp - p.1 }

/-- Member function `DHT20Sensor::CalibrateHumidity` (a `void` function): the sensor after the call. -/
def DHT20Sensor.CalibrateHumidity (s : DHT20Sensor) (io : I2cExchange)
    (actual_humidity : CFloat) : DHT20Sensor :=
  let p := s.GetHumidity io
  { p.2 with humidity_offset_ := actual_humidity - p.1 }

/-- The status bit `data[0] & 0x80` is clear. -/
def Response.ready (d : Response) : Prop := d.b0.val &&& 0x80 = 0

instance (d : Response) : Decidable d.ready := by
  unfold Response.ready; infer_instance

/-- The exchange's two bus calls both returned `ESP_OK`. -/
def I2cExchange.ok (io : I2cExchange) : Prop :=
  io.transmit_ret = ESP_OK ∧ io.receive_ret = ESP_OK

instance (io : I2cExchange) : Decidable io.ok := by
  unfold I2cExchange.ok; infer_instance

/-- A successful exchange delivering `d`. -/
def okExchange (d : Response) : I2cExchange :=
  { transmit_ret := ESP_OK, receive_ret := ESP_OK, data := d }

/-- A response with status byte `0x1C` (top bit clear) whose raw fields are `0x80000`
(50 % relative humidity) and `0x60000` (25 °C). -/
def sampleResponse : Response := ⟨0x1C, 0x80, 0x00, 0x06, 0x00, 0x00, 0x00⟩

/-- A response with status byte `0x80` (measurement not ready) and the data bytes of
`sampleResponse`. -/
def busyResponse : Response := ⟨0x80, 0x80, 0x00, 0x06, 0x00, 0x00, 0x00⟩

/-! ## `compact_wifi_board.cc` -/

/-- Modelled from the spec: the `DeviceState` enumeration, whose declaration is not
among the sources.  The sources name `kDeviceStateIdle` and `kDeviceStateStarting`, the
spec names the listening state; `kDeviceStateOther n` stands for each remaining
enumerator. -/
inductive DeviceState where
  | kDeviceStateStarting
  | kDeviceStateIdle
  | kDeviceStateListening
  | kDeviceStateOther (n : Nat)
deriving DecidableEq, Repr

/-- The fields of `struct tm` that the board reads, with the ranges `localtime_r`
delivers (`tm_year` counts years since 1900, `tm_mon` months since January, `tm_wday`
days since Sunday). -/
structure tm where
  tm_sec : Fin 62
  tm_min : Fin 60
  tm_hour : Fin 24
  tm_mday : Fin 32
  tm_mon : Fin 12
  tm_year : Nat
  tm_wday : Fin 7
deriving DecidableEq, Repr

/-- The printf conversion `%0<w>d` of a non-negative number: decimal digits, padded on
the left with zeros up to width `w`. -/
def fmt_0d (w n : Nat) : String :=
  let digits := toString n
  String.mk (List.replicate (w - digits.length) '0') ++ digits

/-- The table `weekdays` of `UpdateStandbyScreen`. -/
def weekdays : Fin 7 → String
  | 0 => "日"
  | 1 => "一"
  | 2 => "二"
  | 3 => "三"
  | 4 => "四"
  | 5 => "五"
  | 6 => "六"

/-- The `date_str` of `UpdateStandbyScreen`: `"%04d-%02d-%02d 星期%s"`.  For years up to
9999 the text has 20 bytes, below the 32 of the buffer, so `snprintf` does not cut
it. -/
def format_date_str (timeinfo : tm) : String :=
  fmt_0d 4 (timeinfo.tm_year + 1900) ++ "-" ++ fmt_0d 2 (timeinfo.tm_mon.val + 1) ++ "-" ++
    fmt_0d 2 timeinfo.tm_mday.val ++ " 星期" ++ weekdays timeinfo.tm_wday

/-- The `time_str` of `UpdateStandbyScreen`: `"%02d:%02d:%02d"`. -/
def format_time_str (timeinfo : tm) : String :=
  fmt_0d 2 timeinfo.tm_hour.val ++ ":" ++ fmt_0d 2 timeinfo.tm_min.val ++ ":" ++
    fmt_0d 2 timeinfo.tm_sec.val

/-- The dynamic type of `display_`: `InitializeSsd1306Display` installs an `OledDisplay`,
or a `NoDisplay` when the panel failed to initialise. -/
inductive Display where
  | OledDisplay
  | NoDisplay
deriving DecidableEq, Repr

/-- The result of `dynamic_cast<OledDisplay*>(display_)` is non-null. -/
def Display.isOled : Display → Bool
  | .OledDisplay => true
  | .NoDisplay => false

/-- A call the board makes on its `OledDisplay`. -/
inductive OledCall where
  | ShowStandbyScreen (visible : Bool)
  | UpdateStandbyData (date_str time_str : String) (temp humidity : CFloat)
deriving DecidableEq, Repr

/-- The data members of `CompactWifiBoard` that the standby code touches.
`dht20_sensor_` is `none` for a null pointer. -/
structure CompactWifiBoard where
  display_ : Display
  dht20_sensor_ : Option DHT20Sensor
  last_temperature_ : CFloat
  last_humidity_ : CFloat
deriving DecidableEq, Repr

/-- The constructor `CompactWifiBoard()`: `InitializeSsd1306Display` installs a
`NoDisplay` when `esp_lcd_panel_init` fails and an `OledDisplay` otherwise,
`InitializeTools` creates the sensor object, and the two cached values start at
`0.0f`.  (A failed `ESP_ERROR_CHECK` aborts the program and is not modelled.) -/
def CompactWifiBoard.ctor (panel_init_ret add_device_ret : esp_err_t) : CompactWifiBoard :=
  { display_ := if panel_init_ret ≠ ESP_OK then Display.NoDisplay else Display.OledDisplay
    dht20_sensor_ := some (DHT20Sensor.ctor add_device_ret)
    last_temperature_ := 0
    last_humidity_ := 0 }

/-- Member function `CompactWifiBoard::OnDeviceStateChanged`: the calls made on the OLED display. -/
def CompactWifiBoard.OnDeviceStateChanged (b : CompactWifiBoard)
    (_old_state new_state : DeviceState) : List OledCall :=
  if new_state = DeviceState.kDeviceStateIdle then
    if b.display_.isOled then [OledCall.ShowStandbyScreen true] else []
  else
    if b.display_.isOled then [OledCall.ShowStandbyScreen false] else []

/-- Member function `CompactWifiBoard::UpdateStandbyScreen`, the body of the 1-second timer callback:
the board after the tick and the calls made on the OLED display.  `state` is what
`Application::GetInstance().GetDeviceState()` returns, `timeinfo` the broken-down wall
clock, `io` what the bus does if the sensor is read.  The locals `t` and `h` are
uninitialised before `ReadData`; their initial content (here `0`) is never used. -/
def CompactWifiBoard.UpdateStandbyScreen (b : CompactWifiBoard) (state : DeviceState)
    (timeinfo : tm) (io : I2cExchange) : CompactWifiBoard × List OledCall :=
  if state ≠ DeviceState.kDeviceStateIdle then
    (b, [])
  else
    let date_str := format_date_str timeinfo
    let time_str := format_time_str timeinfo
    let temp := b.last_temperature_
    let humidity := b.last_humidity_
    let after : CompactWifiBoard × CFloat × CFloat :=
      match b.dht20_sensor_ with
      | none => (b, temp, humidity)
      | some sensor =>
        if sensor.IsInitialized then
          let r := sensor.ReadData io 0 0
          if r.ret then
            ({ b with dht20_sensor_ := some r.sensor
                      last_temperature_ := r.temperature
                      last_humidity_ := r.humidity }, r.temperature, r.humidity)
          else
            ({ b with dht20_sensor_ := some r.sensor }, temp, humidity)
        else (b, temp, humidity)
    if b.display_.isOled then
      (after.1, [OledCall.UpdateStandbyData date_str time_str after.2.1 after.2.2])
    else
      (after.1, [])

/-- The calls a tick makes on the display when it got as far as the display update. -/
def tickCalls (b : CompactWifiBoard) (timeinfo : tm) (temp humidity : CFloat) : List OledCall :=
  if b.display_.isOled then
    [OledCall.UpdateStandbyData (format_date_str timeinfo) (format_time_str timeinfo)
      temp humidity]
  else []

/-- An initialised sensor with zero offsets whose last good reading was 25 °C, 50 %. -/
def sampleSensor : DHT20Sensor :=
  { initialized_ := true, temperature_ := 25, humidity_ := 50, temperature_offset_ := 0,
    humidity_offset_ := 0 }

/-- A board with an OLED display, `sampleSensor`, and its last reading cached. -/
def sampleBoard : CompactWifiBoard :=
  { display_ := Display.OledDisplay, dht20_sensor_ := some sampleSensor,
    last_temperature_ := 25, last_humidity_ := 50 }

/-- Tuesday 2 January 2024, 03:04:05. -/
def sampleTime : tm :=
  { tm_sec := 5, tm_min := 4, tm_hour := 3, tm_mday := 2, tm_mon := 0, tm_year := 124,
    tm_wday := 2 }

/-! ## `standby_screen.cc` -/

/-- The printf conversion `%.1f` of a number: sign, integer part, a point and one
decimal, rounded to the nearest tenth (ties to the even tenth). -/
def fmt_1f (x : ℚ) : String :=
  let a : ℚ := |x| * 10
  let f : Nat := a.num.toNat / a.den
  let r : ℚ := a - f
  let n : Nat :=
    if r < 1 / 2 then f else if 1 / 2 < r then f + 1 else if f % 2 = 0 then f else f + 1
  (if x < 0 then "-" else "") ++ toString (n / 10) ++ "." ++ toString (n % 10)

/-- The label members of `StandbyScreen`. -/
inductive LabelId where
  | date_label_
  | weekday_label_
  | time_label_
  | temp_icon_
  | temperature_label_
  | humidity_icon_
  | humidity_label_
deriving DecidableEq, Repr

/-- The functions handed to `lv_async_call`. -/
inductive Deferred where
  | UpdateTimeUI
  | UpdateTemperatureHumidityUI
deriving DecidableEq, Repr

/-- A call the screen makes into LVGL or `esp_timer` that the model records:
creation and deletion of the container (the root of the widget tree), every
`lv_label_set_text`, starting and stopping `update_timer_`, and `lv_async_call`.
Layout and style calls are not recorded. -/
inductive LvCall where
  | obj_create_container
  | obj_del_container
  | label_set_text (label : LabelId) (text : String)
  | timer_start_periodic
  | timer_stop
  | async_call (f : Deferred)
deriving DecidableEq, Repr

/-- LVGL's `LV_SYMBOL_IMAGE` (glyph U+F03E). -/
def LV_SYMBOL_IMAGE : String := "\uF03E"

/-- LVGL's `LV_SYMBOL_SETTINGS` (glyph U+F013). -/
def LV_SYMBOL_SETTINGS : String := "\uF013"

/-- The data members of `StandbyScreen`.  A widget pointer is `none` when null; a
label pointer that is not null carries the text the label shows.  `calls` is the
record of the calls made so far, oldest first. -/
structure StandbyScreen where
  width_ : Int
  height_ : Int
  is_visible_ : Bool
  container_ : Option Unit
  date_label_ : Option String
  weekday_label_ : Option String
  time_label_ : Option String
  temperature_label_ : Option String
  humidity_label_ : Option String
  temp_icon_ : Option String
  humidity_icon_ : Option String
  divider_line_ : Option Unit
  current_temperature_ : CFloat
  current_humidity_ : CFloat
  cached_date_ : String
  cached_weekday_ : String
  cached_time_ : String
  calls : List LvCall
deriving DecidableEq, Repr

/-- The constructor `StandbyScreen::StandbyScreen(width, height)`. -/
def StandbyScreen.ctor (width height : Int) : StandbyScreen :=
  { width_ := width
    height_ := height
    is_visible_ := false
    container_ := none
    date_label_ := none
    weekday_label_ := none
    time_label_ := none
    temperature_label_ := none
    humidity_label_ := none
    temp_icon_ := none
    humidity_icon_ := none
    divider_line_ := none
    current_temperature_ := CFloat.nan
    current_humidity_ := CFloat.nan
    cached_date_ := ""
    cached_weekday_ := ""
    cached_time_ := ""
    calls := [] }

/-- The call `lv_label_set_text(label, text)` on a label pointer: the label now shows `text`. -/
def lv_label_set_text (label : Option String) (text : String) : Option String :=
  label.map (fun _ => text)

/-- Member function `StandbyScreen::CreateUI`.  Widget creation returns non-null handles. -/
def StandbyScreen.CreateUI (s : StandbyScreen) : StandbyScreen :=
  if s.container_ ≠ none then s
  else
    { s with
      container_ := some ()
      date_label_ := some ""
      weekday_label_ := some ""
      time_label_ := some "--:--"
      temp_icon_ := some (LV_SYMBOL_IMAGE ++ "°C")
      temperature_label_ := some "--.-°C"
      humidity_icon_ := some (LV_SYMBOL_SETTINGS ++ "%")
      humidity_label_ := some "--.-%"
      divider_line_ := some ()
      calls := s.calls ++
        [ LvCall.obj_create_container,
          LvCall.label_set_text LabelId.date_label_ "",
          LvCall.label_set_text LabelId.weekday_label_ "",
          LvCall.label_set_text LabelId.time_label_ "--:--",
          LvCall.label_set_text LabelId.temp_icon_ (LV_SYMBOL_IMAGE ++ "°C"),
          LvCall.label_set_text LabelId.temperature_label_ "--.-°C",
          LvCall.label_set_text LabelId.humidity_icon_ (LV_SYMBOL_SETTINGS ++ "%"),
          LvCall.label_set_text LabelId.humidity_label_ "--.-%" ] }

/-- Member function `StandbyScreen::DestroyUI`. -/
def StandbyScreen.DestroyUI (s : StandbyScreen) : StandbyScreen :=
  if s.container_ ≠ none then
    { s with
      container_ := none
      date_label_ := none
      weekday_label_ := none
      time_label_ := none
      temperature_label_ := none
      humidity_label_ := none
      temp_icon_ := none
      humidity_icon_ := none
      divider_line_ := none
      calls := s.calls ++ [LvCall.obj_del_container] }
  else s

/-- Member function `StandbyScreen::Show`. -/
def StandbyScreen.Show (s : StandbyScreen) : StandbyScreen :=
  if s.is_visible_ then s
  else
    let s1 := s.CreateUI
    { s1 with is_visible_ := true, calls := s1.calls ++ [LvCall.timer_start_periodic] }

/-- Member function `StandbyScreen::Hide`. -/
def StandbyScreen.Hide (s : StandbyScreen) : StandbyScreen :=
  if !s.is_visible_ then s
  else
    let s1 := { s with calls := s.calls ++ [LvCall.timer_stop] }
    let s2 := s1.DestroyUI
    { s2 with is_visible_ := false }

/-- Member function `StandbyScreen::UpdateTime`: stores the three strings and posts `UpdateTimeUI` to
the rendering context. -/
def StandbyScreen.UpdateTime (s : StandbyScreen) (date weekday time : String) :
    StandbyScreen :=
  { s with
    cached_date_ := date
    cached_weekday_ := weekday
    cached_time_ := time
    calls := s.calls ++ [LvCall.async_call Deferred.UpdateTimeUI] }

/-- Member function `StandbyScreen::UpdateTimeUI`, run on the rendering context. -/
def StandbyScreen.UpdateTimeUI (s : StandbyScreen) : StandbyScreen :=
  if !s.is_visible_ || s.date_label_ = none then s
  else
    { s with
      date_label_ := lv_label_set_text s.date_label_ s.cached_date_
      weekday_label_ := lv_label_set_text s.weekday_label_ s.cached_weekday_
      time_label_ := lv_label_set_text s.time_label_ s.cached_time_
      calls := s.calls ++
        [ LvCall.label_set_text LabelId.date_label_ s.cached_date_,
          LvCall.label_set_text LabelId.weekday_label_ s.cached_weekday_,
          LvCall.label_set_text LabelId.time_label_ s.cached_time_ ] }

/-- Member function `StandbyScreen::UpdateTemperatureHumidity`: stores the two values and, while the
screen is visible, posts `UpdateTemperatureHumidityUI` to the rendering context. -/
def StandbyScreen.UpdateTemperatureHumidity (s : StandbyScreen)
    (temperature humidity : CFloat) : StandbyScreen :=
  let s1 := { s with current_temperature_ := temperature, current_humidity_ := humidity }
  if !s1.is_visible_ || s1.temperature_label_ = none then s1
  else { s1 with calls := s1.calls ++ [LvCall.async_call Deferred.UpdateTemperatureHumidityUI] }

/-- The printf conversion `%.1f` of a `float` (promoted to `double` without change of
value): "nan" and "inf" with their sign for NaN and the infinities, else the sign and
the magnitude rounded to one decimal. -/
def printf_1f (x : CFloat) : String :=
  (if x.sign then "-" else "") ++
    (if x.isNaN then "nan" else if x.isInf then "inf" else fmt_1f x.absRat)

/-- The first characters of `cs` that fit into `n` bytes of UTF-8. -/
def take_bytes : Nat → List Char → List Char
  | _, [] => []
  | n, c :: cs => if c.utf8Size ≤ n then c :: take_bytes (n - c.utf8Size) cs else []

/-- The text that `snprintf(buf, size, ...)` leaves in `buf` when the formatted text is
`text`: at most `size - 1` bytes of it.  When the cut falls inside a character of
several bytes, C leaves the leading bytes of that character in `buf`; they form no
character and are not part of the text here. -/
def snprintf (size : Nat) (text : String) : String :=
  String.mk (take_bytes (size - 1) text.data)

/-- The text `temp_buf` (`char[32]`) of `UpdateTemperatureHumidityUI`: `"--.-°C"` when
`std::isnan(current_temperature_)`, else the value printed with `"%.1f°C"`. -/
def temp_buf (current_temperature : CFloat) : String :=
  if current_temperature.isNaN then snprintf 32 "--.-°C"
  else snprintf 32 (printf_1f current_temperature ++ "°C")

/-- The text `humi_buf` (`char[32]`) of `UpdateTemperatureHumidityUI`: `"--.-%"` when
`std::isnan(current_humidity_)`, else the value printed with `"%.1f%%"`. -/
def humi_buf (current_humidity : CFloat) : String :=
  if current_humidity.isNaN then snprintf 32 "--.-%"
  else snprintf 32 (printf_1f current_humidity ++ "%")

/-- Member function `StandbyScreen::UpdateTemperatureHumidityUI`, run on the rendering context. -/
def StandbyScreen.UpdateTemperatureHumidityUI (s : StandbyScreen) : StandbyScreen :=
  if !s.is_visible_ || s.temperature_label_ = none then s
  else
    { s with
      temperature_label_ := lv_label_set_text s.temperature_label_ (temp_buf s.current_temperature_)
      humidity_label_ := lv_label_set_text s.humidity_label_ (humi_buf s.current_humidity_)
      calls := s.calls ++
        [ LvCall.label_set_text LabelId.temperature_label_ (temp_buf s.current_temperature_),
          LvCall.label_set_text LabelId.humidity_label_ (humi_buf s.current_humidity_) ] }

/-- Modelled from the spec: `OledDisplay::ShowStandbyScreen(bool)`, whose definition
(`oled_display.cc`) is not among the sources.  By §4.4 and §6 of the spec a show
request makes the standby surface visible and a hide request hides it. -/
def OledDisplay.ShowStandbyScreen (screen : StandbyScreen) (visible : Bool) :
    StandbyScreen :=
  if visible then screen.Show else screen.Hide

/-- The standby screen after the `ShowStandbyScreen` calls of `cs` have been made on
the display that owns it, in order (other calls are skipped). -/
def deliverShowHide (screen : StandbyScreen) : List OledCall → StandbyScreen
  | [] => screen
  | OledCall.ShowStandbyScreen v :: cs =>
    deliverShowHide (OledDisplay.ShowStandbyScreen screen v) cs
  | OledCall.UpdateStandbyData _ _ _ _ :: cs => deliverShowHide screen cs

/-- The number of times the widget tree was created so far. -/
def StandbyScreen.created (s : StandbyScreen) : Nat :=
  s.calls.count LvCall.obj_create_container

/-- The number of times the widget tree was destroyed so far. -/
def StandbyScreen.destroyed (s : StandbyScreen) : Nat :=
  s.calls.count LvCall.obj_del_container

/-- The number of `lv_label_set_text` calls made so far. -/
def StandbyScreen.label_writes (s : StandbyScreen) : Nat :=
  s.calls.countP (fun c => match c with
    | LvCall.label_set_text _ _ => true
    | _ => false)

/-- The standby screen after the device-state sequence Idle → Listening → Idle: the
calls of `OnDeviceStateChanged(Idle, Listening)` and then those of
`OnDeviceStateChanged(Listening, Idle)` are made on the display that owns `screen`. -/
def idleListeningIdle (b : CompactWifiBoard) (screen : StandbyScreen) : StandbyScreen :=
  deliverShowHide
    (deliverShowHide screen
      (b.OnDeviceStateChanged DeviceState.kDeviceStateIdle DeviceState.kDeviceStateListening))
    (b.OnDeviceStateChanged DeviceState.kDeviceStateListening DeviceState.kDeviceStateIdle)

/-- A hidden screen that has recorded a clock reading and a valid sample: the
constructor, `UpdateTime` with its deferred `UpdateTimeUI`, then
`UpdateTemperatureHumidity(25, 50)`. -/
def recordedScreen : StandbyScreen :=
  (((StandbyScreen.ctor 128 64).UpdateTime "2024-01-02" "周二" "03:04:05").UpdateTimeUI
    ).UpdateTemperatureHumidity (CFloat.num 25) (CFloat.num 50)

/-- The failure code `ESP_FAIL` of `esp_err.h`. -/
def ESP_FAIL : esp_err_t := -1

/-- A response with status byte `0x1C` whose raw humidity field is `0x19999` (bytes
`0x19`, `0x99` and the high nibble `9`); the raw temperature field is `0`. -/
def humidity19999Response : Response := ⟨0x1C, 0x19, 0x99, 0x90, 0x00, 0x00, 0x00⟩

/-- The number of tenths that `%.1f` prints for `x`: `|x| * 10` rounded to the nearest
integer, ties to even.  It is the `n` of `fmt_1f`. -/
def round_tenths (x : ℚ) : Nat :=
  let a : ℚ := |x| * 10
  let f : Nat := a.num.toNat / a.den
  let r : ℚ := a - f
  if r < 1 / 2 then f else if 1 / 2 < r then f + 1 else if f % 2 = 0 then f else f + 1

/-- A call on a `StandbyScreen`: one of the four public operations, or the run of one
of the two functions handed to `lv_async_call`. -/
inductive ScreenOp where
  | Show
  | Hide
  | UpdateTime (date weekday time : String)
  | UpdateTemperatureHumidity (temperature humidity : CFloat)
  | UpdateTimeUI
  | UpdateTemperatureHumidityUI
deriving DecidableEq, Repr

/-- The screen after one call. -/
def StandbyScreen.step (s : StandbyScreen) : ScreenOp → StandbyScreen
  | ScreenOp.Show => s.Show
  | ScreenOp.Hide => s.Hide
  | ScreenOp.UpdateTime date weekday time => s.UpdateTime date weekday time
  | ScreenOp.UpdateTemperatureHumidity temperature humidity =>
    s.UpdateTemperatureHumidity temperature humidity
  | ScreenOp.UpdateTimeUI => s.UpdateTimeUI
  | ScreenOp.UpdateTemperatureHumidityUI => s.UpdateTemperatureHumidityUI

/-- The screen after a sequence of calls, made in order.  A deferred function may run
at any point of the sequence, which covers every order in which the rendering context
can deliver the posted calls. -/
def StandbyScreen.run (s : StandbyScreen) (ops : List ScreenOp) : StandbyScreen :=
  ops.foldl StandbyScreen.step s

/-- The pointers `container_`, `date_label_`, `weekday_label_`, `time_label_`,
`temperature_label_` and `humidity_label_` are all non-null. -/
def StandbyScreen.widgetsPresent (s : StandbyScreen) : Prop :=
  s.container_ ≠ none ∧ s.date_label_ ≠ none ∧ s.weekday_label_ ≠ none ∧
    s.time_label_ ≠ none ∧ s.temperature_label_ ≠ none ∧ s.humidity_label_ ≠ none

instance (s : StandbyScreen) : Decidable s.widgetsPresent := by
  unfold StandbyScreen.widgetsPresent; infer_instance

/-- The pointers `container_`, `date_label_`, `weekday_label_`, `time_label_`,
`temperature_label_` and `humidity_label_` are all null. -/
def StandbyScreen.widgetsNull (s : StandbyScreen) : Prop :=
  s.container_ = none ∧ s.date_label_ = none ∧ s.weekday_label_ = none ∧
    s.time_label_ = none ∧ s.temperature_label_ = none ∧ s.humidity_label_ = none

instance (s : StandbyScreen) : Decidable s.widgetsNull := by
  unfold StandbyScreen.widgetsNull; infer_instance

/-- A visible screen whose temperature is unknown and whose humidity is 50 %. -/
def halfKnownScreen : StandbyScreen :=
  (StandbyScreen.ctor 128 64).run
    [ScreenOp.Show, ScreenOp.UpdateTemperatureHumidity CFloat.nan (CFloat.num 50)]

/-- A visible screen that holds the temperature `1e30f` and the humidity `+infinity`. -/
def hugeScreen : StandbyScreen :=
  (StandbyScreen.ctor 128 64).run
    [ScreenOp.Show,
      ScreenOp.UpdateTemperatureHumidity (CFloat.num (10 ^ 30)) (CFloat.inf false)]

/-- A response with the status bit clear whose raw humidity field is `0xB0001` and
whose raw temperature field is `0x70001`. -/
def roundingResponse : Response := ⟨0x00, 0xB0, 0x00, 0x17, 0x00, 0x01, 0x00⟩

/-- A response with the status bit clear whose two raw fields are both `0xFFFFF`. -/
def fullScaleResponse : Response := ⟨0x00, 0xFF, 0xFF, 0xFF, 0xFF, 0xFF, 0x00⟩

/-! ## Binary32 rounding -/

theorem pow2_eq (e : Int) : pow2 e = (2 : ℚ) ^ e := by
  unfold pow2
  split_ifs with h
  · obtain ⟨n, rfl⟩ := Int.eq_ofNat_of_zero_le h
    simp
  · have h1 : 0 ≤ -e := by omega
    obtain ⟨n, hn⟩ := Int.eq_ofNat_of_zero_le h1
    have he : e = -(n : ℤ) := by omega
    rw [hn, he]
    simp

theorem pow2_pos (e : Int) : 0 < pow2 e := by
  rw [pow2_eq]
  positivity

theorem pow2_add (a b : Int) : pow2 (a + b) = pow2 a * pow2 b := by
  rw [pow2_eq, pow2_eq, pow2_eq, zpow_add₀ (by norm_num)]

theorem pow2_le (a b : Int) (h : a ≤ b) : pow2 a ≤ pow2 b := by
  rw [pow2_eq, pow2_eq]
  exact zpow_le_zpow_right₀ (by norm_num) h

theorem pow2_natCast (n : ℕ) : pow2 (n : ℤ) = ((2 ^ n : ℕ) : ℚ) := by
  rw [pow2_eq]
  simp

theorem ilog2Aux_spec (fuel : ℕ) : ∀ n : ℕ, n ≤ fuel → n ≠ 0 →
    2 ^ ilog2Aux fuel n ≤ n ∧ n < 2 ^ (ilog2Aux fuel n + 1) := by
  induction fuel with
  | zero => intro n h hn; omega
  | succ fuel ih =>
    intro n h hn
    unfold ilog2Aux
    split_ifs with h2
    · constructor <;> simp <;> omega
    · have h3 := ih (n / 2) (by omega) (by omega)
      rw [Nat.pow_succ, Nat.pow_succ, Nat.pow_succ]
      rw [Nat.pow_succ] at h3
      omega

theorem ilog2_spec (n : ℕ) (hn : n ≠ 0) : 2 ^ ilog2 n ≤ n ∧ n < 2 ^ (ilog2 n + 1) :=
  ilog2Aux_spec n n (Nat.le_refl n) hn

theorem floorLog2_spec (v : ℚ) (hv : 0 < v) :
    pow2 (floorLog2 v) ≤ v ∧ v < pow2 (floorLog2 v + 1) := by
  have hnum : 0 < v.num := Rat.num_pos.2 hv
  have hp0 : v.num.toNat ≠ 0 := by omega
  have hq0 : v.den ≠ 0 := v.den_nz
  obtain ⟨p1, p2⟩ := ilog2_spec v.num.toNat hp0
  obtain ⟨q1, q2⟩ := ilog2_spec v.den hq0
  have hcast : v = (v.num.toNat : ℚ) / (v.den : ℚ) := by
    have h1 : ((v.num.toNat : ℕ) : ℤ) = v.num := Int.toNat_of_nonneg hnum.le
    have h2 : ((v.num.toNat : ℕ) : ℚ) = (v.num : ℚ) := by exact_mod_cast h1
    rw [h2]
    exact (Rat.num_div_den v).symm
  have hqpos : (0 : ℚ) < (v.den : ℚ) := by exact_mod_cast Nat.pos_of_ne_zero hq0
  have P1 : ((2 ^ ilog2 v.num.toNat : ℕ) : ℚ) ≤ (v.num.toNat : ℚ) := by exact_mod_cast p1
  have P2 : ((v.num.toNat : ℕ) : ℚ) < ((2 ^ (ilog2 v.num.toNat + 1) : ℕ) : ℚ) := by
    exact_mod_cast p2
  have Q1 : ((2 ^ ilog2 v.den : ℕ) : ℚ) ≤ (v.den : ℚ) := by exact_mod_cast q1
  have Q2 : ((v.den : ℕ) : ℚ) < ((2 ^ (ilog2 v.den + 1) : ℕ) : ℚ) := by exact_mod_cast q2
  rw [← pow2_natCast] at P1 P2 Q1 Q2
  -- the two outer bounds
  have hup : v < pow2 ((ilog2 v.num.toNat : ℤ) - (ilog2 v.den : ℤ) + 1) := by
    have : pow2 ((ilog2 v.num.toNat : ℤ) - (ilog2 v.den : ℤ) + 1) * pow2 (ilog2 v.den : ℤ) =
        pow2 ((ilog2 v.num.toNat + 1 : ℕ) : ℤ) := by
      rw [← pow2_add, show (ilog2 v.num.toNat : ℤ) - (ilog2 v.den : ℤ) + 1 + (ilog2 v.den : ℤ) =
        ((ilog2 v.num.toNat + 1 : ℕ) : ℤ) by push_cast; ring]
    refine lt_of_eq_of_lt hcast ?_
    rw [div_lt_iff₀ hqpos]
    calc (v.num.toNat : ℚ) < pow2 ((ilog2 v.num.toNat + 1 : ℕ) : ℤ) := P2
      _ = pow2 ((ilog2 v.num.toNat : ℤ) - (ilog2 v.den : ℤ) + 1) * pow2 (ilog2 v.den : ℤ) :=
          this.symm
      _ ≤ pow2 ((ilog2 v.num.toNat : ℤ) - (ilog2 v.den : ℤ) + 1) * (v.den : ℚ) :=
          mul_le_mul_of_nonneg_left Q1 (pow2_pos _).le
  have hlo : pow2 ((ilog2 v.num.toNat : ℤ) - (ilog2 v.den : ℤ) - 1) ≤ v := by
    have : pow2 ((ilog2 v.num.toNat : ℤ) - (ilog2 v.den : ℤ) - 1) *
        pow2 ((ilog2 v.den + 1 : ℕ) : ℤ) = pow2 (ilog2 v.num.toNat : ℤ) := by
      rw [← pow2_add, show (ilog2 v.num.toNat : ℤ) - (ilog2 v.den : ℤ) - 1 +
        ((ilog2 v.den + 1 : ℕ) : ℤ) = (ilog2 v.num.toNat : ℤ) by push_cast; ring]
    refine le_of_le_of_eq ?_ hcast.symm
    rw [le_div_iff₀ hqpos]
    calc pow2 ((ilog2 v.num.toNat : ℤ) - (ilog2 v.den : ℤ) - 1) * (v.den : ℚ)
        ≤ pow2 ((ilog2 v.num.toNat : ℤ) - (ilog2 v.den : ℤ) - 1) *
            pow2 ((ilog2 v.den + 1 : ℕ) : ℤ) :=
          mul_le_mul_of_nonneg_left Q2.le (pow2_pos _).le
      _ = pow2 (ilog2 v.num.toNat : ℤ) := this
      _ ≤ (v.num.toNat : ℚ) := P1
  unfold floorLog2
  simp only
  split_ifs with h
  · exact ⟨h, hup⟩
  · push_neg at h
    refine ⟨hlo, ?_⟩
    rw [show (ilog2 v.num.toNat : ℤ) - (ilog2 v.den : ℤ) - 1 + 1 =
      (ilog2 v.num.toNat : ℤ) - (ilog2 v.den : ℤ) by ring]
    exact h

theorem floor_nat (a : ℚ) (ha : 0 ≤ a) :
    ((a.num.toNat / a.den : ℕ) : ℚ) ≤ a ∧ a < ((a.num.toNat / a.den : ℕ) : ℚ) + 1 := by
  have hnum : 0 ≤ a.num := Rat.num_nonneg.2 ha
  have hcast : ((a.num.toNat : ℕ) : ℚ) / (a.den : ℚ) = a := by
    have h1 : ((a.num.toNat : ℕ) : ℤ) = a.num := Int.toNat_of_nonneg hnum
    have h2 : ((a.num.toNat : ℕ) : ℚ) = (a.num : ℚ) := by exact_mod_cast h1
    rw [h2]
    exact Rat.num_div_den a
  have hfloor : a.num.toNat / a.den = ⌊((a.num.toNat : ℕ) : ℚ) / (a.den : ℚ)⌋₊ :=
    (Nat.floor_div_eq_div _ _).symm
  rw [hfloor, hcast]
  exact ⟨Nat.floor_le ha, Nat.lt_floor_add_one a⟩

theorem rne_le_of_le (a : ℚ) (ha : 0 ≤ a) (N : ℕ) (h : a ≤ N) : rne a ≤ N := by
  obtain ⟨h1, h2⟩ := floor_nat a ha
  have hf : a.num.toNat / a.den ≤ N := by
    have : ((a.num.toNat / a.den : ℕ) : ℚ) ≤ (N : ℚ) := le_trans h1 h
    exact_mod_cast this
  have hlt : (1 : ℚ) / 2 ≤ a - ((a.num.toNat / a.den : ℕ) : ℚ) → a.num.toNat / a.den + 1 ≤ N := by
    intro hr
    have : ((a.num.toNat / a.den : ℕ) : ℚ) < (N : ℚ) := by linarith
    have : a.num.toNat / a.den < N := by exact_mod_cast this
    omega
  unfold rne
  simp only
  split_ifs with c1 c2 c3
  · exact hf
  · exact hlt (by linarith)
  · exact hf
  · exact hlt (by linarith)

theorem le_rne_of_le (a : ℚ) (ha : 0 ≤ a) (N : ℕ) (h : (N : ℚ) ≤ a) : N ≤ rne a := by
  obtain ⟨h1, h2⟩ := floor_nat a ha
  have hf : N ≤ a.num.toNat / a.den := by
    have : (N : ℚ) < ((a.num.toNat / a.den : ℕ) : ℚ) + 1 := lt_of_le_of_lt h h2
    have : (N : ℚ) < ((a.num.toNat / a.den + 1 : ℕ) : ℚ) := by push_cast; exact this
    have : N < a.num.toNat / a.den + 1 := by exact_mod_cast this
    omega
  unfold rne
  simp only
  split_ifs <;> omega

theorem pow2_lt_of (a b : Int) (h : pow2 a < pow2 b) : a < b := by
  by_contra hn
  exact absurd (pow2_le b a (by omega)) (not_le.2 h)

theorem absRat_mk (s : Bool) (E1 m : ℕ) (e : ℤ) (hE : (E1 : ℤ) = e + 126)
    (hm : m ≤ 16777216) (hlow : e ≠ -126 → 8388608 ≤ m)
    (hb : E1 * 8388608 + m < 2147483648) :
    (CFloat.mk s ⟨E1 * 8388608 + m, hb⟩).absRat = (m : ℚ) * pow2 (e - 23) := by
  unfold CFloat.absRat CFloat.expo CFloat.frac
  simp only
  by_cases h1 : m < 8388608
  · have he : e = -126 := by
      by_contra hne
      exact absurd (hlow hne) (by omega)
    have hE0 : E1 = 0 := by omega
    subst hE0
    have hd : (0 * 8388608 + m) / 8388608 = 0 := by omega
    have hmod : (0 * 8388608 + m) % 8388608 = m := by omega
    rw [hd, hmod, he]
    simp
  · by_cases h2 : m < 16777216
    · have hd : (E1 * 8388608 + m) / 8388608 = E1 + 1 := by omega
      have hmod : (E1 * 8388608 + m) % 8388608 = m - 8388608 := by omega
      rw [hd, hmod]
      have hne : ¬ (E1 + 1 = 0) := by omega
      rw [if_neg hne]
      have hs : 8388608 + (m - 8388608) = m := by omega
      rw [hs]
      have hexp : ((E1 + 1 : ℕ) : ℤ) - 150 = e - 23 := by push_cast; omega
      rw [hexp]
    · have hm2 : m = 16777216 := by omega
      subst hm2
      have hd : (E1 * 8388608 + 16777216) / 8388608 = E1 + 2 := by omega
      have hmod : (E1 * 8388608 + 16777216) % 8388608 = 0 := by omega
      rw [hd, hmod]
      have hne : ¬ (E1 + 2 = 0) := by omega
      rw [if_neg hne]
      have hp : pow2 (((E1 + 2 : ℕ) : ℤ) - 150) = 2 * pow2 (e - 23) := by
        have : (((E1 + 2 : ℕ) : ℤ) - 150) = 1 + (e - 23) := by push_cast; omega
        rw [this, pow2_add]
        have h1 : pow2 1 = 2 := by
          have := pow2_natCast 1
          norm_num at this
          exact this
        rw [h1]
      rw [hp]
      push_cast
      ring

/-- Rounding a positive value that does not exceed a binary32 value `N * 2 ^ j` gives
a finite value of the requested sign whose magnitude does not exceed it either. -/
theorem round_le (s : Bool) (v : ℚ) (N : ℕ) (j : ℤ) (hv : 0 < v)
    (hvc : v ≤ (N : ℚ) * pow2 j) (hN : N < 16777216) (hj : -149 ≤ j) (hj2 : j ≤ 100) :
    (CFloat.round s v).isFinite = true ∧ (CFloat.round s v).sign = s ∧
    (CFloat.round s v).absRat ≤ (N : ℚ) * pow2 j := by
  obtain ⟨f1, f2⟩ := floorLog2_spec v hv
  have hNq : (N : ℚ) < 16777216 := by exact_mod_cast hN
  have hc24 : (N : ℚ) * pow2 j < pow2 (j + 24) := by
    rw [pow2_add, mul_comm (pow2 j)]
    have : pow2 24 = 16777216 := by
      have := pow2_natCast 24
      norm_num at this
      exact this
    rw [this]
    exact mul_lt_mul_of_pos_right hNq (pow2_pos j)
  have hfl : floorLog2 v < j + 24 :=
    pow2_lt_of _ _ (lt_of_le_of_lt f1 (lt_of_le_of_lt hvc hc24))
  -- the exponent used
  obtain ⟨e, he⟩ : ∃ e : ℤ, e = max (floorLog2 v) (-126) := ⟨_, rfl⟩
  have he1 : floorLog2 v ≤ e := by rw [he]; exact le_max_left _ _
  have he2 : -126 ≤ e := by rw [he]; exact le_max_right _ _
  have he3 : e ≠ -126 → e = floorLog2 v := by
    intro hne
    rcases max_choice (floorLog2 v) (-126) with h | h
    · rw [he, h]
    · exact absurd (he.trans h) hne
  have he4 : e ≤ j + 23 := by
    by_cases hne : e = -126
    · omega
    · rw [he3 hne]; omega
  have hx0 : 0 ≤ v * pow2 (23 - e) := (mul_pos hv (pow2_pos _)).le
  -- bounds on the significand
  have hm24 : rne (v * pow2 (23 - e)) ≤ 16777216 := by
    apply rne_le_of_le _ hx0
    have h1 : v * pow2 (23 - e) ≤ pow2 (floorLog2 v + 1) * pow2 (23 - e) :=
      mul_le_mul_of_nonneg_right f2.le (pow2_pos _).le
    have h2 : pow2 (floorLog2 v + 1) * pow2 (23 - e) ≤ pow2 24 := by
      rw [← pow2_add]
      exact pow2_le _ _ (by omega)
    have h3 : pow2 24 = ((16777216 : ℕ) : ℚ) := by
      have := pow2_natCast 24
      norm_num at this
      rw [this]
      norm_num
    rw [← h3]
    exact le_trans h1 h2
  have hm23 : e ≠ -126 → 8388608 ≤ rne (v * pow2 (23 - e)) := by
    intro hne
    apply le_rne_of_le _ hx0
    have h3 : pow2 23 = ((8388608 : ℕ) : ℚ) := by
      have := pow2_natCast 23
      norm_num at this
      rw [this]
      norm_num
    rw [← h3]
    have : pow2 23 = pow2 (floorLog2 v) * pow2 (23 - e) := by
      rw [← pow2_add, he3 hne, show floorLog2 v + (23 - floorLog2 v) = 23 by ring]
    rw [this]
    exact mul_le_mul_of_nonneg_right f1 (pow2_pos _).le
  -- the bound by the multiple
  obtain ⟨k, hk⟩ := Int.eq_ofNat_of_zero_le (show 0 ≤ j + 23 - e by omega)
  have hmN : rne (v * pow2 (23 - e)) ≤ N * 2 ^ k := by
    apply rne_le_of_le _ hx0
    have h1 : v * pow2 (23 - e) ≤ (N : ℚ) * pow2 j * pow2 (23 - e) :=
      mul_le_mul_of_nonneg_right hvc (pow2_pos _).le
    have h2 : (N : ℚ) * pow2 j * pow2 (23 - e) = ((N * 2 ^ k : ℕ) : ℚ) := by
      rw [mul_assoc, ← pow2_add, show j + (23 - e) = (k : ℤ) by omega, pow2_natCast]
      push_cast
      ring
    rw [← h2]
    exact h1
  obtain ⟨E1, hE1⟩ := Int.eq_ofNat_of_zero_le (show 0 ≤ e + 126 by omega)
  have hE1' : (e + 126).toNat = E1 := by omega
  have hE252 : E1 ≤ 252 := by omega
  have hb : E1 * 8388608 + rne (v * pow2 (23 - e)) < 2139095040 := by omega
  have hround : CFloat.round s v =
      CFloat.mk s ⟨E1 * 8388608 + rne (v * pow2 (23 - e)), by omega⟩ := by
    unfold CFloat.round CFloat.roundMag
    rw [if_neg hv.ne']
    simp only [← he, hE1', dif_pos hb]
  rw [hround]
  refine ⟨?_, rfl, ?_⟩
  · unfold CFloat.isFinite
    simpa using hb
  · rw [absRat_mk s E1 _ e (by omega) hm24 hm23]
    have h1 : ((rne (v * pow2 (23 - e)) : ℕ) : ℚ) ≤ ((N * 2 ^ k : ℕ) : ℚ) := by
      exact_mod_cast hmN
    have h2 : ((N * 2 ^ k : ℕ) : ℚ) * pow2 (e - 23) = (N : ℚ) * pow2 j := by
      rw [show ((N * 2 ^ k : ℕ) : ℚ) = (N : ℚ) * pow2 (k : ℤ) by
        rw [pow2_natCast]; push_cast; ring]
      rw [mul_assoc, ← pow2_add, show (k : ℤ) + (e - 23) = j by omega]
    rw [← h2]
    exact mul_le_mul_of_nonneg_right h1 (pow2_pos _).le

theorem absRat_nonneg (x : CFloat) : 0 ≤ x.absRat := by
  unfold CFloat.absRat
  split_ifs
  · exact mul_nonneg (Nat.cast_nonneg _) (pow2_pos _).le
  · exact mul_nonneg (Nat.cast_nonneg _) (pow2_pos _).le

theorem finite_not_nan (x : CFloat) (h : x.isFinite = true) : x.isNaN = false := by
  unfold CFloat.isFinite at h
  unfold CFloat.isNaN
  simp only [decide_eq_true_eq] at h
  simp only [decide_eq_false_iff_not]
  omega

theorem finite_not_inf (x : CFloat) (h : x.isFinite = true) : x.isInf = false := by
  unfold CFloat.isFinite at h
  unfold CFloat.isInf
  simp only [decide_eq_true_eq] at h
  simp only [decide_eq_false_iff_not]
  omega

theorem zero_facts (s : Bool) :
    (CFloat.zero s).isFinite = true ∧ (CFloat.zero s).sign = s ∧ (CFloat.zero s).absRat = 0 ∧
    (CFloat.zero s).toRat = 0 := by
  refine ⟨by cases s <;> decide, rfl, ?_, ?_⟩
  · unfold CFloat.absRat CFloat.expo CFloat.frac CFloat.zero
    simp
  · unfold CFloat.toRat CFloat.absRat CFloat.expo CFloat.frac CFloat.zero
    simp

theorem round_zero (s : Bool) : CFloat.round s 0 = CFloat.zero s := by
  unfold CFloat.round CFloat.roundMag CFloat.zero
  simp

/-- Rounding a value between `0` and a binary32 value `N * 2 ^ j` gives a finite value
of the requested sign whose magnitude does not exceed `N * 2 ^ j`. -/
theorem round_nonneg_le (s : Bool) (v : ℚ) (N : ℕ) (j : ℤ) (hv : 0 ≤ v)
    (hvc : v ≤ (N : ℚ) * pow2 j) (hN : N < 16777216) (hj : -149 ≤ j) (hj2 : j ≤ 100) :
    (CFloat.round s v).isFinite = true ∧ (CFloat.round s v).sign = s ∧
    (CFloat.round s v).absRat ≤ (N : ℚ) * pow2 j := by
  rcases eq_or_lt_of_le hv with h0 | hpos
  · rw [← h0, round_zero]
    obtain ⟨z1, z2, z3, _⟩ := zero_facts s
    refine ⟨z1, z2, ?_⟩
    rw [z3]
    exact mul_nonneg (Nat.cast_nonneg _) (pow2_pos _).le
  · exact round_le s v N j hpos hvc hN hj hj2

/-- The binary32 value nearest to a rational between `-(L * 2 ^ i)` and `N * 2 ^ j`,
two binary32 values, is finite and lies between them. -/
theorem num_range (q : ℚ) (L N : ℕ) (i j : ℤ)
    (hlo : -((L : ℚ) * pow2 i) ≤ q) (hhi : q ≤ (N : ℚ) * pow2 j)
    (hL : L < 16777216) (hi : -149 ≤ i) (hi2 : i ≤ 100)
    (hN : N < 16777216) (hj : -149 ≤ j) (hj2 : j ≤ 100) :
    (CFloat.num q).isFinite = true ∧ -((L : ℚ) * pow2 i) ≤ (CFloat.num q).toRat ∧
    (CFloat.num q).toRat ≤ (N : ℚ) * pow2 j := by
  have hL0 : 0 ≤ (L : ℚ) * pow2 i := mul_nonneg (Nat.cast_nonneg _) (pow2_pos _).le
  have hN0 : 0 ≤ (N : ℚ) * pow2 j := mul_nonneg (Nat.cast_nonneg _) (pow2_pos _).le
  unfold CFloat.num
  by_cases hq : q < 0
  · have habs : |q| = -q := abs_of_neg hq
    obtain ⟨r1, r2, r3⟩ := round_nonneg_le true |q| L i (abs_nonneg q)
      (by rw [habs]; linarith) hL hi hi2
    have hd : decide (q < 0) = true := by simpa using hq
    rw [hd]
    refine ⟨r1, ?_, ?_⟩
    · unfold CFloat.toRat
      rw [r2]
      simp only [if_true]
      linarith
    · unfold CFloat.toRat
      rw [r2]
      simp only [if_true]
      linarith [absRat_nonneg (CFloat.round true |q|)]
  · have hq0 : 0 ≤ q := not_lt.1 hq
    have habs : |q| = q := abs_of_nonneg hq0
    obtain ⟨r1, r2, r3⟩ := round_nonneg_le false |q| N j (abs_nonneg q)
      (by rw [habs]; exact hhi) hN hj hj2
    have hd : decide (q < 0) = false := by simpa using hq0
    rw [hd]
    refine ⟨r1, ?_, ?_⟩
    · unfold CFloat.toRat
      rw [r2]
      simp only [Bool.false_eq_true, if_false]
      linarith [absRat_nonneg (CFloat.round false |q|)]
    · unfold CFloat.toRat
      rw [r2]
      simp only [Bool.false_eq_true, if_false]
      exact r3

/-- The binary32 sum of two finite values whose exact sum lies between two binary32
values is finite and lies between them. -/
theorem add_range (x y : CFloat) (L N : ℕ) (i j : ℤ)
    (hx : x.isFinite = true) (hy : y.isFinite = true)
    (hlo : -((L : ℚ) * pow2 i) ≤ x.toRat + y.toRat)
    (hhi : x.toRat + y.toRat ≤ (N : ℚ) * pow2 j)
    (hL : L < 16777216) (hi : -149 ≤ i) (hi2 : i ≤ 100)
    (hN : N < 16777216) (hj : -149 ≤ j) (hj2 : j ≤ 100) :
    (x + y).isFinite = true ∧ -((L : ℚ) * pow2 i) ≤ (x + y).toRat ∧
    (x + y).toRat ≤ (N : ℚ) * pow2 j := by
  have hL0 : 0 ≤ (L : ℚ) * pow2 i := mul_nonneg (Nat.cast_nonneg _) (pow2_pos _).le
  have hN0 : 0 ≤ (N : ℚ) * pow2 j := mul_nonneg (Nat.cast_nonneg _) (pow2_pos _).le
  show (CFloat.add x y).isFinite = true ∧ -((L : ℚ) * pow2 i) ≤ (CFloat.add x y).toRat ∧
    (CFloat.add x y).toRat ≤ (N : ℚ) * pow2 j
  unfold CFloat.add
  simp only [finite_not_nan x hx, finite_not_nan y hy, finite_not_inf x hx,
    finite_not_inf y hy, Bool.or_self, Bool.false_eq_true, if_false]
  split_ifs with h0
  · obtain ⟨z1, _, _, z4⟩ := zero_facts (x.sign && y.sign)
    refine ⟨z1, ?_, ?_⟩ <;> rw [z4] <;> linarith
  · exact num_range _ L N i j hlo hhi hL hi hi2 hN hj hj2

theorem neg_facts (y : CFloat) :
    (-y).isFinite = y.isFinite ∧ (-y).toRat = -y.toRat := by
  show (CFloat.neg y).isFinite = y.isFinite ∧ (CFloat.neg y).toRat = -y.toRat
  refine ⟨rfl, ?_⟩
  unfold CFloat.toRat CFloat.neg
  have : (CFloat.mk (!y.sign) y.mag).absRat = y.absRat := rfl
  rw [this]
  cases y.sign <;> simp

theorem sub_eq_add_neg' (x y : CFloat) : x - y = x + (-y) := rfl

/-- The binary32 product of two finite non-negative values whose exact product does not
exceed a binary32 value is finite, non-negative and does not exceed it. -/
theorem mul_nonneg_le (x y : CFloat) (N : ℕ) (j : ℤ)
    (hx : x.isFinite = true) (hy : y.isFinite = true)
    (sx : x.sign = false) (sy : y.sign = false)
    (h : x.absRat * y.absRat ≤ (N : ℚ) * pow2 j)
    (hN : N < 16777216) (hj : -149 ≤ j) (hj2 : j ≤ 100) :
    (x * y).isFinite = true ∧ (x * y).sign = false ∧ (x * y).absRat ≤ (N : ℚ) * pow2 j := by
  show (CFloat.mul x y).isFinite = true ∧ (CFloat.mul x y).sign = false ∧
    (CFloat.mul x y).absRat ≤ (N : ℚ) * pow2 j
  unfold CFloat.mul
  simp only [finite_not_nan x hx, finite_not_nan y hy, finite_not_inf x hx,
    finite_not_inf y hy, Bool.or_self, Bool.false_eq_true, if_false, sx, sy, bne_self_eq_false]
  exact round_nonneg_le false _ N j (mul_nonneg (absRat_nonneg x) (absRat_nonneg y)) h hN hj hj2

/-- The binary32 quotient of a finite non-negative value by a finite positive value,
when the exact quotient does not exceed a binary32 value, is finite, non-negative and
does not exceed it. -/
theorem div_nonneg_le (x y : CFloat) (N : ℕ) (j : ℤ)
    (hx : x.isFinite = true) (hy : y.isFinite = true)
    (sx : x.sign = false) (sy : y.sign = false) (hy0 : y.mag.val ≠ 0)
    (h : x.absRat / y.absRat ≤ (N : ℚ) * pow2 j)
    (hN : N < 16777216) (hj : -149 ≤ j) (hj2 : j ≤ 100) :
    (x / y).isFinite = true ∧ (x / y).sign = false ∧ (x / y).absRat ≤ (N : ℚ) * pow2 j := by
  show (CFloat.div x y).isFinite = true ∧ (CFloat.div x y).sign = false ∧
    (CFloat.div x y).absRat ≤ (N : ℚ) * pow2 j
  unfold CFloat.div
  simp only [finite_not_nan x hx, finite_not_nan y hy, finite_not_inf x hx,
    finite_not_inf y hy, Bool.or_self, Bool.false_eq_true, if_false, sx, sy, bne_self_eq_false,
    hy0]
  exact round_nonneg_le false _ N j (div_nonneg (absRat_nonneg x) (absRat_nonneg y)) h hN hj hj2

/-! ## Decoding lemmas -/

theorem shl_or_eq (a i b : Nat) (hb : b < 2 ^ i) : (a <<< i) ||| b = a * 2 ^ i + b := by
  rw [Nat.shiftLeft_eq, Nat.mul_comm a, Nat.mul_add_lt_is_or hb]

theorem low_nibble (x : Fin 256) : x.val &&& 0x0F = x.val % 16 :=
  Nat.and_pow_two_sub_one_eq_mod x.val 4

theorem high_nibble (x : Fin 256) : (x.val &&& 0xF0) >>> 4 = x.val / 16 := by
  have hx := x.isLt
  have h : (x.val &&& 0xF0) >>> 4 = (x.val / 16) &&& (2 ^ 4 - 1) := by
    apply Nat.eq_of_testBit_eq
    intro j
    rw [Nat.testBit_shiftRight, Nat.testBit_and, Nat.testBit_and,
      show (0xF0 : Nat) = 2 ^ 4 * 15 from rfl, Nat.testBit_mul_pow_two,
      show (16 : Nat) = 2 ^ 4 from rfl, ← Nat.shiftRight_eq_div_pow, Nat.testBit_shiftRight]
    simp
  rw [h, Nat.and_pow_two_sub_one_eq_mod]
  omega

theorem raw_humidity_eq (d : Response) :
    raw_humidity d = d.b1.val * 4096 + d.b2.val * 16 + d.b3.val / 16 := by
  have h1 := d.b1.isLt
  have h2 := d.b2.isLt
  have h3 := d.b3.isLt
  unfold raw_humidity
  rw [high_nibble, Nat.lor_assoc, shl_or_eq d.b2.val 4 (d.b3.val / 16) (by omega),
    shl_or_eq d.b1.val 12 _ (by omega)]
  omega

theorem raw_temperature_eq (d : Response) :
    raw_temperature d = (d.b3.val % 16) * 65536 + d.b4.val * 256 + d.b5.val := by
  have h3 := d.b3.isLt
  have h4 := d.b4.isLt
  have h5 := d.b5.isLt
  unfold raw_temperature
  rw [low_nibble, Nat.lor_assoc, shl_or_eq d.b4.val 8 d.b5.val (by omega),
    shl_or_eq (d.b3.val % 16) 16 _ (by omega)]
  omega

/-! ## `ReadData`: the two outcomes -/

theorem ReadData_fail (s : DHT20Sensor) (io : I2cExchange) (t0 h0 : CFloat)
    (h : ¬ (s.initialized_ = true ∧ io.ok ∧ io.data.ready)) :
    s.ReadData io t0 h0 = { ret := false, temperature := t0, humidity := h0, sensor := s } := by
  unfold DHT20Sensor.ReadData
  by_cases h1 : s.initialized_ = true
  · by_cases h2 : io.transmit_ret = ESP_OK
    · by_cases h3 : io.receive_ret = ESP_OK
      · have h4 : ¬ io.data.b0.val &&& 0x80 = 0 := fun h4 => h ⟨h1, ⟨h2, h3⟩, h4⟩
        simp [h1, h2, h3, h4]
      · simp [h1, h2, h3]
    · simp [h1, h2]
  · simp [h1]

theorem ReadData_ok (s : DHT20Sensor) (io : I2cExchange) (t0 h0 : CFloat)
    (h1 : s.initialized_ = true) (h2 : io.ok) (h3 : io.data.ready) :
    s.ReadData io t0 h0 =
      { ret := true
        temperature := ((raw_temperature io.data : CFloat) * 200) / 1048576 - 50 + s.temperature_offset_
        humidity := ((raw_humidity io.data : CFloat) * 100) / 1048576 + s.humidity_offset_
        sensor :=
          { s with
            temperature_ :=
              ((raw_temperature io.data : CFloat) * 200) / 1048576 - 50 + s.temperature_offset_
            humidity_ := ((raw_humidity io.data : CFloat) * 100) / 1048576 + s.humidity_offset_ } } := by
  unfold Response.ready at h3
  unfold DHT20Sensor.ReadData
  simp [h1, h2.1, h2.2, h3]

theorem ReadData_ret_iff (s : DHT20Sensor) (io : I2cExchange) (t0 h0 : CFloat) :
    (s.ReadData io t0 h0).ret = true ↔ (s.initialized_ = true ∧ io.ok ∧ io.data.ready) := by
  constructor
  · intro h
    by_contra hn
    rw [ReadData_fail s io t0 h0 hn] at h
    exact Bool.false_ne_true h
  · rintro ⟨h1, h2, h3⟩
    rw [ReadData_ok s io t0 h0 h1 h2 h3]

theorem sample_ready : sampleResponse.ready := by decide

theorem busy_not_ready : ¬ busyResponse.ready := by decide

theorem sample_raw_humidity : raw_humidity sampleResponse = 524288 := by decide

theorem sample_raw_temperature : raw_temperature sampleResponse = 393216 := by decide

theorem okExchange_ok (d : Response) : (okExchange d).ok := ⟨rfl, rfl⟩

/-! ## The sampler tick: case analysis -/

theorem tick_not_idle (b : CompactWifiBoard) (state : DeviceState) (timeinfo : tm)
    (io : I2cExchange) (hs : state ≠ DeviceState.kDeviceStateIdle) :
    b.UpdateStandbyScreen state timeinfo io = (b, []) := by
  unfold CompactWifiBoard.UpdateStandbyScreen
  simp [hs]

theorem tick_idle_no_sensor (b : CompactWifiBoard) (timeinfo : tm) (io : I2cExchange)
    (hd : b.dht20_sensor_ = none) :
    b.UpdateStandbyScreen DeviceState.kDeviceStateIdle timeinfo io =
      (b, tickCalls b timeinfo b.last_temperature_ b.last_humidity_) := by
  unfold CompactWifiBoard.UpdateStandbyScreen tickCalls
  by_cases ho : b.display_.isOled = true <;> simp [hd, ho]

theorem tick_idle_uninitialized (b : CompactWifiBoard) (timeinfo : tm) (io : I2cExchange)
    (sensor : DHT20Sensor) (hd : b.dht20_sensor_ = some sensor)
    (hi : sensor.IsInitialized = false) :
    b.UpdateStandbyScreen DeviceState.kDeviceStateIdle timeinfo io =
      (b, tickCalls b timeinfo b.last_temperature_ b.last_humidity_) := by
  unfold CompactWifiBoard.UpdateStandbyScreen tickCalls
  by_cases ho : b.display_.isOled = true <;> simp [hd, ho, hi]

theorem tick_idle_read_failed (b : CompactWifiBoard) (timeinfo : tm) (io : I2cExchange)
    (sensor : DHT20Sensor) (hd : b.dht20_sensor_ = some sensor)
    (hi : sensor.IsInitialized = true) (hr : (sensor.ReadData io 0 0).ret = false) :
    b.UpdateStandbyScreen DeviceState.kDeviceStateIdle timeinfo io =
      ({ b with dht20_sensor_ := some (sensor.ReadData io 0 0).sensor },
        tickCalls b timeinfo b.last_temperature_ b.last_humidity_) := by
  unfold CompactWifiBoard.UpdateStandbyScreen tickCalls
  by_cases ho : b.display_.isOled = true <;> simp [hd, ho, hi, hr]

theorem tick_idle_read_ok (b : CompactWifiBoard) (timeinfo : tm) (io : I2cExchange)
    (sensor : DHT20Sensor) (hd : b.dht20_sensor_ = some sensor)
    (hi : sensor.IsInitialized = true) (hr : (sensor.ReadData io 0 0).ret = true) :
    b.UpdateStandbyScreen DeviceState.kDeviceStateIdle timeinfo io =
      ({ b with dht20_sensor_ := some (sensor.ReadData io 0 0).sensor
                last_temperature_ := (sensor.ReadData io 0 0).temperature
                last_humidity_ := (sensor.ReadData io 0 0).humidity },
        tickCalls b timeinfo (sensor.ReadData io 0 0).temperature
          (sensor.ReadData io 0 0).humidity) := by
  unfold CompactWifiBoard.UpdateStandbyScreen tickCalls
  by_cases ho : b.display_.isOled = true <;> simp [hd, ho, hi, hr]

/-- A tick in which no sensor read returns true keeps the two cached values and the
display, and passes the cached values on if it passes anything. -/
theorem tick_of_no_good_read (b : CompactWifiBoard) (state : DeviceState) (timeinfo : tm)
    (io : I2cExchange)
    (h : ∀ sensor, b.dht20_sensor_ = some sensor → (sensor.ReadData io 0 0).ret = false) :
    (b.UpdateStandbyScreen state timeinfo io).1.last_temperature_ = b.last_temperature_ ∧
    (b.UpdateStandbyScreen state timeinfo io).1.last_humidity_ = b.last_humidity_ ∧
    (b.UpdateStandbyScreen state timeinfo io).1.display_ = b.display_ ∧
    (state = DeviceState.kDeviceStateIdle →
      (b.UpdateStandbyScreen state timeinfo io).2 =
        tickCalls b timeinfo b.last_temperature_ b.last_humidity_) := by
  by_cases hs : state = DeviceState.kDeviceStateIdle
  · subst hs
    cases hd : b.dht20_sensor_ with
    | none => rw [tick_idle_no_sensor b timeinfo io hd]; simp
    | some sensor =>
      cases hi : sensor.IsInitialized with
      | false => rw [tick_idle_uninitialized b timeinfo io sensor hd hi]; simp
      | true => rw [tick_idle_read_failed b timeinfo io sensor hd hi (h sensor hd)]; simp
  · rw [tick_not_idle b state timeinfo io hs]; simp [hs]

theorem tick_last_of_no_good_read (b : CompactWifiBoard) (state : DeviceState)
    (timeinfo : tm) (io : I2cExchange)
    (h : ∀ sensor, b.dht20_sensor_ = some sensor → (sensor.ReadData io 0 0).ret = false) :
    (b.UpdateStandbyScreen state timeinfo io).1.last_temperature_ = b.last_temperature_ ∧
    (b.UpdateStandbyScreen state timeinfo io).1.last_humidity_ = b.last_humidity_ :=
  ⟨(tick_of_no_good_read b state timeinfo io h).1, (tick_of_no_good_read b state timeinfo io h).2.1⟩

/-! ## Claims about `DHT20Sensor` -/

/-- C1 (amended): for every response whose status bit is clear and every pair of
calibration offsets, `ReadData` on an initialised sensor with a successful bus exchange
returns true and writes to the caller the binary32 results of
`(float)raw_h * 100.0f / 1048576.0f + humidity_offset_` and
`(float)raw_t * 200.0f / 1048576.0f - 50.0f + temperature_offset_`, each conversion,
product, quotient, difference and sum rounded to the nearest binary32 value, where
`raw_h = data[1]*4096 + data[2]*16 + data[3] div 16` and
`raw_t = (data[3] mod 16)*65536 + data[4]*256 + data[5]`; it stores the same two
values as the cached `temperature_` and `humidity_`; the offsets are not changed. -/
theorem C1_ReadData_decodes (s : DHT20Sensor) (io : I2cExchange) (t0 h0 : CFloat)
    (hinit : s.initialized_ = true) (hio : io.ok) (hready : io.data.b0.val &&& 0x80 = 0) :
    (s.ReadData io t0 h0).ret = true ∧
    (s.ReadData io t0 h0).humidity =
      ((io.data.b1.val * 4096 + io.data.b2.val * 16 + io.data.b3.val / 16 : Nat) : CFloat) * 100
        / 1048576 + s.humidity_offset_ ∧
    (s.ReadData io t0 h0).temperature =
      (((io.data.b3.val % 16) * 65536 + io.data.b4.val * 256 + io.data.b5.val : Nat) : CFloat) * 200
        / 1048576 - 50 + s.temperature_offset_ ∧
    (s.ReadData io t0 h0).sensor.temperature_ = (s.ReadData io t0 h0).temperature ∧
    (s.ReadData io t0 h0).sensor.humidity_ = (s.ReadData io t0 h0).humidity ∧
    (s.ReadData io t0 h0).sensor.temperature_offset_ = s.temperature_offset_ ∧
    (s.ReadData io t0 h0).sensor.humidity_offset_ = s.humidity_offset_ ∧
    (s.ReadData io t0 h0).sensor.initialized_ = true := by
  rw [ReadData_ok s io t0 h0 hinit hio hready, raw_humidity_eq, raw_temperature_eq]
  simp [hinit]

/-- Witness for C1 (amended): a sensor with offsets `1` and `-2` reading
`sampleResponse` obtains the humidity 48 %. -/
theorem C1_ReadData_decodes_witness :
    (({ initialized_ := true, temperature_ := 0, humidity_ := 0, temperature_offset_ := 1,
        humidity_offset_ := -2 } : DHT20Sensor).ReadData (okExchange sampleResponse) 7 8).ret
      = true ∧
    (({ initialized_ := true, temperature_ := 0, humidity_ := 0, temperature_offset_ := 1,
        humidity_offset_ := -2 } : DHT20Sensor).ReadData (okExchange sampleResponse) 7 8).humidity
      = ((0x80 * 4096 + 0 * 16 + 6 / 16 : Nat) : CFloat) * 100 / 1048576 + (-2) ∧
    (((0x80 * 4096 + 0 * 16 + 6 / 16 : Nat) : CFloat) * 100 / 1048576 + (-2)).toRat = 48 :=
  have h := C1_ReadData_decodes
    { initialized_ := true, temperature_ := 0, humidity_ := 0, temperature_offset_ := 1,
      humidity_offset_ := -2 } (okExchange sampleResponse) 7 8 rfl (okExchange_ok _) (by decide)
  ⟨h.1, h.2.1, by decide!⟩

/-- C1 (as stated, refuted): the just-constructed sensor (initialised, both offsets
`0`) reads `roundingResponse`, whose status bit is clear and whose raw humidity field
is `720897`.  `ReadData` returns true and writes the humidity `2252803 / 32768`
(68.7500916...), while `raw_h * 100 / 1048576 + humidity_offset` is
`18022425 / 262144` (68.7500953...): the product `72089700` is not a binary32 value
and is rounded to `72089696`.  Reading `fullScaleResponse` (both raw fields
`1048575`) it writes the humidity `3276797 / 32768` and the temperature
`2457597 / 16384`, while the two formulas give `26214375 / 262144` and
`19660775 / 131072`. -/
theorem C1_exact_formula_fails :
    roundingResponse.b0.val &&& 0x80 = 0 ∧
    (DHT20Sensor.ctor ESP_OK).initialized_ = true ∧
    (DHT20Sensor.ctor ESP_OK).humidity_offset_.toRat = 0 ∧
    (DHT20Sensor.ctor ESP_OK).temperature_offset_.toRat = 0 ∧
    roundingResponse.b1.val * 4096 + roundingResponse.b2.val * 16 + roundingResponse.b3.val / 16
      = 720897 ∧
    ((DHT20Sensor.ctor ESP_OK).ReadData (okExchange roundingResponse) 0 0).ret = true ∧
    ((DHT20Sensor.ctor ESP_OK).ReadData (okExchange roundingResponse) 0 0).humidity.isFinite
      = true ∧
    ((DHT20Sensor.ctor ESP_OK).ReadData (okExchange roundingResponse) 0 0).humidity.toRat
      = 2252803 / 32768 ∧
    (720897 : ℚ) * 100 / 1048576 + 0 = 18022425 / 262144 ∧
    (((720897 : ℕ) : CFloat) * 100).toRat = 72089696 ∧
    ((DHT20Sensor.ctor ESP_OK).ReadData (okExchange roundingResponse) 0 0).humidity.toRat
      ≠ (720897 : ℚ) * 100 / 1048576 + 0 ∧
    fullScaleResponse.b0.val &&& 0x80 = 0 ∧
    fullScaleResponse.b1.val * 4096 + fullScaleResponse.b2.val * 16 + fullScaleResponse.b3.val / 16
      = 1048575 ∧
    (fullScaleResponse.b3.val % 16) * 65536 + fullScaleResponse.b4.val * 256 +
      fullScaleResponse.b5.val = 1048575 ∧
    ((DHT20Sensor.ctor ESP_OK).ReadData (okExchange fullScaleResponse) 0 0).humidity.toRat
      = 3276797 / 32768 ∧
    ((DHT20Sensor.ctor ESP_OK).ReadData (okExchange fullScaleResponse) 0 0).humidity.toRat
      ≠ (1048575 : ℚ) * 100 / 1048576 + 0 ∧
    ((DHT20Sensor.ctor ESP_OK).ReadData (okExchange fullScaleResponse) 0 0).temperature.toRat
      = 2457597 / 16384 ∧
    ((DHT20Sensor.ctor ESP_OK).ReadData (okExchange fullScaleResponse) 0 0).temperature.toRat
      ≠ (1048575 : ℚ) * 200 / 1048576 - 50 + 0 ∧
    (1048575 : ℚ) * 100 / 1048576 + 0 = 26214375 / 262144 ∧
    (1048575 : ℚ) * 200 / 1048576 - 50 + 0 = 19660775 / 131072 := by
  decide!

/-- C2: for every response whose status bit is set, `ReadData` returns false, leaves
the sensor (offsets and cached last-good values included) unchanged and does not write
the caller's output values; a sampler tick with such a response leaves the board's
`last_temperature_` and `last_humidity_` unchanged. -/
theorem C2_status_bit_set (s : DHT20Sensor) (io : I2cExchange) (t0 h0 : CFloat)
    (b : CompactWifiBoard) (state : DeviceState) (timeinfo : tm)
    (hbusy : io.data.b0.val &&& 0x80 ≠ 0) :
    (s.ReadData io t0 h0).ret = false ∧
    (s.ReadData io t0 h0).sensor = s ∧
    (s.ReadData io t0 h0).temperature = t0 ∧
    (s.ReadData io t0 h0).humidity = h0 ∧
    (b.UpdateStandbyScreen state timeinfo io).1.last_temperature_ = b.last_temperature_ ∧
    (b.UpdateStandbyScreen state timeinfo io).1.last_humidity_ = b.last_humidity_ := by
  have hf : ∀ (s : DHT20Sensor) (t0 h0 : CFloat), s.ReadData io t0 h0 =
      { ret := false, temperature := t0, humidity := h0, sensor := s } := fun s t0 h0 =>
    ReadData_fail s io t0 h0 (fun h => hbusy h.2.2)
  have hb := tick_last_of_no_good_read b state timeinfo io (fun sensor _ => by rw [hf])
  exact ⟨by rw [hf], by rw [hf], by rw [hf], by rw [hf], hb.1, hb.2⟩

/-- Witness for C2: `sampleSensor` and `sampleBoard` receiving `busyResponse`. -/
theorem C2_status_bit_set_witness :
    (okExchange busyResponse).data.b0.val &&& 0x80 ≠ 0 ∧
    (sampleSensor.ReadData (okExchange busyResponse) 7 8).ret = false ∧
    (sampleSensor.ReadData (okExchange busyResponse) 7 8).sensor = sampleSensor ∧
    (sampleSensor.ReadData (okExchange busyResponse) 7 8).temperature = 7 ∧
    (sampleSensor.ReadData (okExchange busyResponse) 7 8).humidity = 8 ∧
    (sampleBoard.UpdateStandbyScreen DeviceState.kDeviceStateIdle sampleTime
      (okExchange busyResponse)).1.last_temperature_ = sampleBoard.last_temperature_ ∧
    (sampleBoard.UpdateStandbyScreen DeviceState.kDeviceStateIdle sampleTime
      (okExchange busyResponse)).1.last_humidity_ = sampleBoard.last_humidity_ :=
  ⟨by decide,
    C2_status_bit_set sampleSensor (okExchange busyResponse) 7 8 sampleBoard
      DeviceState.kDeviceStateIdle sampleTime (by decide)⟩

/-! ### Calibration -/

theorem GetTemperature_ok (s : DHT20Sensor) (io : I2cExchange)
    (h1 : s.initialized_ = true) (h2 : io.ok) (h3 : io.data.ready) :
    s.GetTemperature io =
      ((s.ReadData io 0 0).temperature, (s.ReadData io 0 0).sensor) := by
  unfold DHT20Sensor.GetTemperature
  simp [(ReadData_ret_iff s io 0 0).2 ⟨h1, h2, h3⟩]

theorem GetHumidity_ok (s : DHT20Sensor) (io : I2cExchange)
    (h1 : s.initialized_ = true) (h2 : io.ok) (h3 : io.data.ready) :
    s.GetHumidity io =
      ((s.ReadData io 0 0).humidity, (s.ReadData io 0 0).sensor) := by
  unfold DHT20Sensor.GetHumidity
  simp [(ReadData_ret_iff s io 0 0).2 ⟨h1, h2, h3⟩]

theorem GetTemperature_fail (s : DHT20Sensor) (io : I2cExchange)
    (h : ¬ (s.initialized_ = true ∧ io.ok ∧ io.data.ready)) :
    s.GetTemperature io = (s.temperature_, s) := by
  unfold DHT20Sensor.GetTemperature
  simp [ReadData_fail s io 0 0 h]

theorem GetHumidity_fail (s : DHT20Sensor) (io : I2cExchange)
    (h : ¬ (s.initialized_ = true ∧ io.ok ∧ io.data.ready)) :
    s.GetHumidity io = (s.humidity_, s) := by
  unfold DHT20Sensor.GetHumidity
  simp [ReadData_fail s io 0 0 h]

/-- C3 (evaluation at the failing input): with a temperature offset of `1` already
stored, `CalibrateTemperature(24)` followed by a read of the same response (25 °C raw)
yields `23`, not `24`; with a humidity offset of `2` already stored,
`CalibrateHumidity(45)` followed by a read of the same response (50 % raw) yields
`43`, not `45`. -/
theorem C3_recalibration_misses_actual :
    (((sampleSensor.SetTemperatureOffset 1).CalibrateTemperature (okExchange sampleResponse)
        24).ReadData (okExchange sampleResponse) 0 0).temperature = 23 ∧
    (((sampleSensor.SetHumidityOffset 2).CalibrateHumidity (okExchange sampleResponse)
        45).ReadData (okExchange sampleResponse) 0 0).humidity = 43 := by
  decide!

/-- C4 (as stated, refuted): `sampleSensor` (offsets `0`, last good reading 25 °C and
50 %) is calibrated while the device answers "not ready".  The fresh reading fails, and
yet the temperature offset becomes `5` after `CalibrateTemperature(30)` and the
humidity offset becomes `10` after `CalibrateHumidity(60)`. -/
theorem C4_failed_read_changes_offset :
    (sampleSensor.ReadData (okExchange busyResponse) 0 0).ret = false ∧
    sampleSensor.temperature_offset_ = 0 ∧
    (sampleSensor.CalibrateTemperature (okExchange busyResponse) 30).temperature_offset_ = 5 ∧
    sampleSensor.humidity_offset_ = 0 ∧
    (sampleSensor.CalibrateHumidity (okExchange busyResponse) 60).humidity_offset_ = 10 := by
  have hf : ¬ (sampleSensor.initialized_ = true ∧ (okExchange busyResponse).ok ∧
      (okExchange busyResponse).data.ready) := fun h => busy_not_ready h.2.2
  refine ⟨by rw [ReadData_fail _ _ _ _ hf], rfl, ?_, rfl, ?_⟩
  · unfold DHT20Sensor.CalibrateTemperature
    rw [GetTemperature_fail _ _ hf]
    show (30 : CFloat) - sampleSensor.temperature_ = 5
    decide!
  · unfold DHT20Sensor.CalibrateHumidity
    rw [GetHumidity_fail _ _ hf]
    show (60 : CFloat) - sampleSensor.humidity_ = 10
    decide!

/-- C4 (amended): if the fresh reading taken inside `CalibrateTemperature` (or
`CalibrateHumidity`) fails (sensor uninitialised, transport error, or status bit set),
the call, which returns nothing, stores `actual - temperature_` (resp.
`actual - humidity_`), the difference to the cached last good value, as the new offset
and changes nothing else of the sensor. -/
theorem C4_calibrate_on_failed_read (s : DHT20Sensor) (io : I2cExchange) (actual : CFloat)
    (h : ¬ (s.initialized_ = true ∧ io.ok ∧ io.data.ready)) :
    s.CalibrateTemperature io actual =
      { s with temperature_offset_ := actual - s.temperature_ } ∧
    s.CalibrateHumidity io actual =
      { s with humidity_offset_ := actual - s.humidity_ } := by
  unfold DHT20Sensor.CalibrateTemperature DHT20Sensor.CalibrateHumidity
  rw [GetTemperature_fail s io h, GetHumidity_fail s io h]
  exact ⟨rfl, rfl⟩

/-- Witness for C4 (amended): `sampleSensor` calibrated during a "not ready" answer. -/
theorem C4_calibrate_on_failed_read_witness :
    ¬ (sampleSensor.initialized_ = true ∧ (okExchange busyResponse).ok ∧
        (okExchange busyResponse).data.ready) ∧
    sampleSensor.CalibrateTemperature (okExchange busyResponse) 30 =
      { sampleSensor with temperature_offset_ := 30 - sampleSensor.temperature_ } ∧
    sampleSensor.CalibrateHumidity (okExchange busyResponse) 30 =
      { sampleSensor with humidity_offset_ := 30 - sampleSensor.humidity_ } :=
  ⟨fun h => busy_not_ready h.2.2,
    C4_calibrate_on_failed_read sampleSensor (okExchange busyResponse) 30
      (fun h => busy_not_ready h.2.2)⟩

/-- The subtraction of `CalibrateTemperature` is a binary32 operation: with the cached
temperature 25 and `actual = 0.1f` (the value `13421773 / 134217728`), a calibration
during a "not ready" answer stores the offset `-13054771 / 524288`. -/
theorem calibrate_subtraction_rounds :
    (CFloat.num (1 / 10)).toRat = 13421773 / 134217728 ∧
    sampleSensor.temperature_.toRat = 25 ∧
    (sampleSensor.CalibrateTemperature (okExchange busyResponse)
      (CFloat.num (1 / 10))).temperature_offset_.toRat = -13054771 / 524288 := by
  decide!

/-! ## Claims about `CompactWifiBoard` -/

theorem sample_date_str : format_date_str sampleTime = "2024-01-02 星期二" := by decide

theorem sample_time_str : format_time_str sampleTime = "03:04:05" := by decide

/-- C5: in a sampler tick without a successful sensor read, `last_temperature_` and
`last_humidity_` keep their previous values, and in the idle state the board passes
these previous values to the OLED display together with the date and time strings
formatted from the tick's clock; the two cached values change only in a tick (in the
idle state) whose `ReadData` returned true. -/
theorem C5_failed_read_keeps_last (b : CompactWifiBoard) (state : DeviceState)
    (timeinfo : tm) (io : I2cExchange) :
    ((∀ sensor, b.dht20_sensor_ = some sensor → (sensor.ReadData io 0 0).ret = false) →
      (b.UpdateStandbyScreen state timeinfo io).1.last_temperature_ = b.last_temperature_ ∧
      (b.UpdateStandbyScreen state timeinfo io).1.last_humidity_ = b.last_humidity_ ∧
      (state = DeviceState.kDeviceStateIdle → b.display_ = Display.OledDisplay →
        (b.UpdateStandbyScreen state timeinfo io).2 =
          [OledCall.UpdateStandbyData (format_date_str timeinfo) (format_time_str timeinfo)
            b.last_temperature_ b.last_humidity_])) ∧
    (((b.UpdateStandbyScreen state timeinfo io).1.last_temperature_ ≠ b.last_temperature_ ∨
        (b.UpdateStandbyScreen state timeinfo io).1.last_humidity_ ≠ b.last_humidity_) →
      state = DeviceState.kDeviceStateIdle ∧
      ∃ sensor, b.dht20_sensor_ = some sensor ∧ (sensor.ReadData io 0 0).ret = true) := by
  constructor
  · intro h
    have hk := tick_of_no_good_read b state timeinfo io h
    refine ⟨hk.1, hk.2.1, fun hs ho => ?_⟩
    rw [hk.2.2.2 hs]
    simp [tickCalls, ho, Display.isOled]
  · intro hne
    by_cases hs : state = DeviceState.kDeviceStateIdle
    · refine ⟨hs, ?_⟩
      by_contra hex
      have h : ∀ sensor, b.dht20_sensor_ = some sensor → (sensor.ReadData io 0 0).ret = false := by
        intro sensor hd
        cases hr : (sensor.ReadData io 0 0).ret with
        | false => rfl
        | true => exact absurd ⟨sensor, hd, hr⟩ hex
      have hk := tick_of_no_good_read b state timeinfo io h
      rcases hne with h1 | h1
      · exact h1 hk.1
      · exact h1 hk.2.1
    · rw [tick_not_idle b state timeinfo io hs] at hne
      simp at hne

/-- Witness for C5: an idle tick of `sampleBoard` in which the device answers "not
ready" keeps 25 °C and 50 % and sends them with the fresh date and time. -/
theorem C5_failed_read_keeps_last_witness :
    (sampleBoard.UpdateStandbyScreen DeviceState.kDeviceStateIdle sampleTime
      (okExchange busyResponse)).1.last_temperature_ = 25 ∧
    (sampleBoard.UpdateStandbyScreen DeviceState.kDeviceStateIdle sampleTime
      (okExchange busyResponse)).1.last_humidity_ = 50 ∧
    (sampleBoard.UpdateStandbyScreen DeviceState.kDeviceStateIdle sampleTime
      (okExchange busyResponse)).2 =
        [OledCall.UpdateStandbyData "2024-01-02 星期二" "03:04:05" 25 50] := by
  have hf : ∀ sensor, sampleBoard.dht20_sensor_ = some sensor →
      (sensor.ReadData (okExchange busyResponse) 0 0).ret = false := fun sensor _ => by
    rw [ReadData_fail sensor _ 0 0 (fun h => busy_not_ready h.2.2)]
  have h := (C5_failed_read_keeps_last sampleBoard DeviceState.kDeviceStateIdle sampleTime
    (okExchange busyResponse)).1 hf
  refine ⟨h.1, h.2.1, ?_⟩
  rw [h.2.2 rfl rfl, sample_date_str, sample_time_str]
  rfl

/-- C6: `OnDeviceStateChanged` asks the OLED display to show the standby screen exactly
when `new_state` is `kDeviceStateIdle` and to hide it for every other `new_state`; no
other call is made, and the outcome does not depend on `old_state`.  (With a
`NoDisplay`, which has no standby screen, no call is made.) -/
theorem C6_show_iff_idle (b : CompactWifiBoard) (old_state new_state : DeviceState) :
    (b.display_ = Display.OledDisplay →
      (b.OnDeviceStateChanged old_state new_state = [OledCall.ShowStandbyScreen true] ↔
        new_state = DeviceState.kDeviceStateIdle) ∧
      (b.OnDeviceStateChanged old_state new_state = [OledCall.ShowStandbyScreen false] ↔
        new_state ≠ DeviceState.kDeviceStateIdle)) ∧
    (∀ c ∈ b.OnDeviceStateChanged old_state new_state,
      (c = OledCall.ShowStandbyScreen true ∧ new_state = DeviceState.kDeviceStateIdle) ∨
      (c = OledCall.ShowStandbyScreen false ∧ new_state ≠ DeviceState.kDeviceStateIdle)) ∧
    (b.display_ = Display.NoDisplay → b.OnDeviceStateChanged old_state new_state = []) ∧
    (∀ other_old : DeviceState,
      b.OnDeviceStateChanged other_old new_state =
        b.OnDeviceStateChanged old_state new_state) := by
  unfold CompactWifiBoard.OnDeviceStateChanged
  refine ⟨fun ho => ?_, ?_, fun ho => ?_, fun _ => rfl⟩
  · by_cases hs : new_state = DeviceState.kDeviceStateIdle <;>
      simp [hs, ho, Display.isOled]
  · by_cases hs : new_state = DeviceState.kDeviceStateIdle <;>
      cases hd : b.display_ <;> simp [hs, Display.isOled]
  · by_cases hs : new_state = DeviceState.kDeviceStateIdle <;>
      simp [hs, ho, Display.isOled]

/-- Witness for C6: `sampleBoard` entering the idle state from the listening state,
and entering the listening state from the idle state. -/
theorem C6_show_iff_idle_witness :
    sampleBoard.display_ = Display.OledDisplay ∧
    sampleBoard.OnDeviceStateChanged DeviceState.kDeviceStateListening
      DeviceState.kDeviceStateIdle = [OledCall.ShowStandbyScreen true] ∧
    sampleBoard.OnDeviceStateChanged DeviceState.kDeviceStateIdle
      DeviceState.kDeviceStateListening = [OledCall.ShowStandbyScreen false] :=
  ⟨rfl,
    ((C6_show_iff_idle sampleBoard DeviceState.kDeviceStateListening
      DeviceState.kDeviceStateIdle).1 rfl).1.2 rfl,
    ((C6_show_iff_idle sampleBoard DeviceState.kDeviceStateIdle
      DeviceState.kDeviceStateListening).1 rfl).2.2 (by decide)⟩

/-- C7 (as stated, refuted): a just-constructed board with a working sensor gets a
timer firing while the device is listening, the sensor being ready to deliver 25 °C
and 50 %.  The tick changes nothing: the cached values stay `0`, the sensor object is
untouched and nothing is sent to the display.  The same firing in the idle state
stores 25 and 50. -/
theorem C7_tick_skipped_when_listening :
    (CompactWifiBoard.ctor ESP_OK ESP_OK).UpdateStandbyScreen
        DeviceState.kDeviceStateListening sampleTime (okExchange sampleResponse) =
      (CompactWifiBoard.ctor ESP_OK ESP_OK, []) ∧
    (CompactWifiBoard.ctor ESP_OK ESP_OK).last_temperature_ = 0 ∧
    (CompactWifiBoard.ctor ESP_OK ESP_OK).last_humidity_ = 0 ∧
    ((CompactWifiBoard.ctor ESP_OK ESP_OK).UpdateStandbyScreen
        DeviceState.kDeviceStateIdle sampleTime (okExchange sampleResponse)).1.last_temperature_
      = 25 ∧
    ((CompactWifiBoard.ctor ESP_OK ESP_OK).UpdateStandbyScreen
        DeviceState.kDeviceStateIdle sampleTime (okExchange sampleResponse)).1.last_humidity_
      = 50 := by
  have hr : ((DHT20Sensor.ctor ESP_OK).ReadData (okExchange sampleResponse) 0 0).ret = true :=
    (ReadData_ret_iff _ _ _ _).2 ⟨rfl, okExchange_ok _, sample_ready⟩
  refine ⟨tick_not_idle _ _ _ _ (by decide), rfl, rfl, ?_, ?_⟩
  · rw [tick_idle_read_ok _ sampleTime (okExchange sampleResponse) (DHT20Sensor.ctor ESP_OK)
      rfl rfl hr]
    simp only
    rw [ReadData_ok (DHT20Sensor.ctor ESP_OK) (okExchange sampleResponse) 0 0 rfl
      (okExchange_ok _) sample_ready]
    simp only [okExchange, sample_raw_temperature, DHT20Sensor.ctor]
    decide!
  · rw [tick_idle_read_ok _ sampleTime (okExchange sampleResponse) (DHT20Sensor.ctor ESP_OK)
      rfl rfl hr]
    simp only
    rw [ReadData_ok (DHT20Sensor.ctor ESP_OK) (okExchange sampleResponse) 0 0 rfl
      (okExchange_ok _) sample_ready]
    simp only [okExchange, sample_raw_humidity, DHT20Sensor.ctor]
    decide!

/-- C7 (amended): a timer firing formats the clock, reads the sensor and updates the
cached last temperature and humidity only while the device state is idle; in every
other device state the firing returns at once, leaving the board, its sensor and the
cached values unchanged and sending nothing to the display.  In the idle state, with
an initialised sensor, a successful bus exchange and the status bit clear, the firing
stores the decoded values in `last_temperature_` and `last_humidity_` and sends them,
with the freshly formatted date and time, to the OLED display. -/
theorem C7_sampler_runs_only_when_idle (b : CompactWifiBoard) (state : DeviceState)
    (timeinfo : tm) (io : I2cExchange) :
    (state ≠ DeviceState.kDeviceStateIdle →
      b.UpdateStandbyScreen state timeinfo io = (b, [])) ∧
    (state = DeviceState.kDeviceStateIdle →
      ∀ sensor, b.dht20_sensor_ = some sensor → sensor.initialized_ = true → io.ok →
        io.data.ready →
        (b.UpdateStandbyScreen state timeinfo io).1.last_temperature_ =
          ((raw_temperature io.data : CFloat) * 200) / 1048576 - 50 + sensor.temperature_offset_ ∧
        (b.UpdateStandbyScreen state timeinfo io).1.last_humidity_ =
          ((raw_humidity io.data : CFloat) * 100) / 1048576 + sensor.humidity_offset_ ∧
        (b.display_ = Display.OledDisplay →
          (b.UpdateStandbyScreen state timeinfo io).2 =
            [OledCall.UpdateStandbyData (format_date_str timeinfo) (format_time_str timeinfo)
              (((raw_temperature io.data : CFloat) * 200) / 1048576 - 50 +
                sensor.temperature_offset_)
              (((raw_humidity io.data : CFloat) * 100) / 1048576 + sensor.humidity_offset_)])) := by
  refine ⟨fun hs => tick_not_idle b state timeinfo io hs, fun hs sensor hd hi hio hready => ?_⟩
  subst hs
  have hr : (sensor.ReadData io 0 0).ret = true :=
    (ReadData_ret_iff _ _ _ _).2 ⟨hi, hio, hready⟩
  rw [tick_idle_read_ok b timeinfo io sensor hd hi hr, ReadData_ok sensor io 0 0 hi hio hready]
  refine ⟨rfl, rfl, fun ho => ?_⟩
  simp [tickCalls, ho, Display.isOled]

/-- Witness for C7 (amended): the just-constructed board in the listening state and in
the idle state. -/
theorem C7_sampler_runs_only_when_idle_witness :
    (CompactWifiBoard.ctor ESP_OK ESP_OK).UpdateStandbyScreen
        DeviceState.kDeviceStateListening sampleTime (okExchange sampleResponse) =
      (CompactWifiBoard.ctor ESP_OK ESP_OK, []) ∧
    ((CompactWifiBoard.ctor ESP_OK ESP_OK).UpdateStandbyScreen
        DeviceState.kDeviceStateIdle sampleTime (okExchange sampleResponse)).1.last_humidity_ =
      ((raw_humidity sampleResponse : CFloat) * 100) / 1048576 + 0 :=
  ⟨(C7_sampler_runs_only_when_idle (CompactWifiBoard.ctor ESP_OK ESP_OK)
      DeviceState.kDeviceStateListening sampleTime (okExchange sampleResponse)).1 (by decide),
    ((C7_sampler_runs_only_when_idle (CompactWifiBoard.ctor ESP_OK ESP_OK)
      DeviceState.kDeviceStateIdle sampleTime (okExchange sampleResponse)).2 rfl
      (DHT20Sensor.ctor ESP_OK) rfl rfl (okExchange_ok _) sample_ready).2.1⟩

/-! ## Claims about `StandbyScreen` -/

theorem CreateUI_of_no_container (s : StandbyScreen) (h : s.container_ = none) :
    s.CreateUI =
      { s with
        container_ := some ()
        date_label_ := some ""
        weekday_label_ := some ""
        time_label_ := some "--:--"
        temp_icon_ := some (LV_SYMBOL_IMAGE ++ "°C")
        temperature_label_ := some "--.-°C"
        humidity_icon_ := some (LV_SYMBOL_SETTINGS ++ "%")
        humidity_label_ := some "--.-%"
        divider_line_ := some ()
        calls := s.calls ++
          [ LvCall.obj_create_container,
            LvCall.label_set_text LabelId.date_label_ "",
            LvCall.label_set_text LabelId.weekday_label_ "",
            LvCall.label_set_text LabelId.time_label_ "--:--",
            LvCall.label_set_text LabelId.temp_icon_ (LV_SYMBOL_IMAGE ++ "°C"),
            LvCall.label_set_text LabelId.temperature_label_ "--.-°C",
            LvCall.label_set_text LabelId.humidity_icon_ (LV_SYMBOL_SETTINGS ++ "%"),
            LvCall.label_set_text LabelId.humidity_label_ "--.-%" ] } := by
  unfold StandbyScreen.CreateUI
  simp [h]

theorem Show_of_visible (s : StandbyScreen) (h : s.is_visible_ = true) : s.Show = s := by
  unfold StandbyScreen.Show
  simp [h]

theorem Hide_of_hidden (s : StandbyScreen) (h : s.is_visible_ = false) : s.Hide = s := by
  unfold StandbyScreen.Hide
  simp [h]

theorem Show_visible (s : StandbyScreen) : s.Show.is_visible_ = true := by
  unfold StandbyScreen.Show
  by_cases h : s.is_visible_ = true <;> simp [h]

theorem Hide_hidden (s : StandbyScreen) : s.Hide.is_visible_ = false := by
  unfold StandbyScreen.Hide
  by_cases h : s.is_visible_ = true
  · simp [h]
  · simp [h]

theorem UpdateTimeUI_of_hidden (s : StandbyScreen) (h : s.is_visible_ = false) :
    s.UpdateTimeUI = s := by
  unfold StandbyScreen.UpdateTimeUI
  simp [h]

theorem UpdateTemperatureHumidityUI_of_hidden (s : StandbyScreen)
    (h : s.is_visible_ = false) : s.UpdateTemperatureHumidityUI = s := by
  unfold StandbyScreen.UpdateTemperatureHumidityUI
  simp [h]

theorem Show_of_hidden (s : StandbyScreen) (hv : s.is_visible_ = false)
    (hc : s.container_ = none) :
    s.Show =
      { s with
        is_visible_ := true
        container_ := some ()
        date_label_ := some ""
        weekday_label_ := some ""
        time_label_ := some "--:--"
        temp_icon_ := some (LV_SYMBOL_IMAGE ++ "°C")
        temperature_label_ := some "--.-°C"
        humidity_icon_ := some (LV_SYMBOL_SETTINGS ++ "%")
        humidity_label_ := some "--.-%"
        divider_line_ := some ()
        calls := s.calls ++
          [ LvCall.obj_create_container,
            LvCall.label_set_text LabelId.date_label_ "",
            LvCall.label_set_text LabelId.weekday_label_ "",
            LvCall.label_set_text LabelId.time_label_ "--:--",
            LvCall.label_set_text LabelId.temp_icon_ (LV_SYMBOL_IMAGE ++ "°C"),
            LvCall.label_set_text LabelId.temperature_label_ "--.-°C",
            LvCall.label_set_text LabelId.humidity_icon_ (LV_SYMBOL_SETTINGS ++ "%"),
            LvCall.label_set_text LabelId.humidity_label_ "--.-%",
            LvCall.timer_start_periodic ] } := by
  unfold StandbyScreen.Show
  rw [CreateUI_of_no_container s hc]
  simp [hv]

theorem Hide_of_visible (s : StandbyScreen) (hv : s.is_visible_ = true)
    (hc : s.container_ ≠ none) :
    s.Hide =
      { s with
        is_visible_ := false
        container_ := none
        date_label_ := none
        weekday_label_ := none
        time_label_ := none
        temperature_label_ := none
        humidity_label_ := none
        temp_icon_ := none
        humidity_icon_ := none
        divider_line_ := none
        calls := s.calls ++ [LvCall.timer_stop, LvCall.obj_del_container] } := by
  unfold StandbyScreen.Hide StandbyScreen.DestroyUI
  simp [hv, hc]

/-- C8 (as stated, refuted): `recordedScreen` is hidden and has recorded the date
"2024-01-02", the weekday "周二", the time "03:04:05" and the sample 25 °C, 50 %.  After
`Show` it is visible and its labels show the texts set by `CreateUI`: empty date and
weekday, "--:--", "--.-°C" and "--.-%". -/
theorem C8_show_paints_placeholders :
    recordedScreen.is_visible_ = false ∧
    recordedScreen.cached_date_ = "2024-01-02" ∧
    recordedScreen.cached_weekday_ = "周二" ∧
    recordedScreen.cached_time_ = "03:04:05" ∧
    recordedScreen.current_temperature_ = CFloat.num 25 ∧
    recordedScreen.current_humidity_ = CFloat.num 50 ∧
    recordedScreen.Show.is_visible_ = true ∧
    recordedScreen.Show.date_label_ = some "" ∧
    recordedScreen.Show.weekday_label_ = some "" ∧
    recordedScreen.Show.time_label_ = some "--:--" ∧
    recordedScreen.Show.temperature_label_ = some "--.-°C" ∧
    recordedScreen.Show.humidity_label_ = some "--.-%" := by
  refine ⟨rfl, rfl, rfl, rfl, rfl, rfl, ?_⟩
  rw [Show_of_hidden recordedScreen rfl rfl]
  exact ⟨rfl, rfl, rfl, rfl, rfl, rfl⟩

/-- C8 (amended): `Show` on a hidden screen (widgets destroyed) makes it visible with
freshly created labels that show the placeholder texts (date and weekday empty, time
"--:--", temperature "--.-°C", humidity "--.-%") and keeps the cached strings and
values; the labels show the cached date, weekday and time once `UpdateTimeUI` has run
on the shown screen, and the cached temperature and humidity (as formatted by
`UpdateTemperatureHumidityUI`) once `UpdateTemperatureHumidityUI` has run. -/
theorem C8_show_then_refresh (s : StandbyScreen) (hv : s.is_visible_ = false)
    (hc : s.container_ = none) :
    (s.Show.is_visible_ = true ∧
      s.Show.date_label_ = some "" ∧
      s.Show.weekday_label_ = some "" ∧
      s.Show.time_label_ = some "--:--" ∧
      s.Show.temperature_label_ = some "--.-°C" ∧
      s.Show.humidity_label_ = some "--.-%") ∧
    (s.Show.cached_date_ = s.cached_date_ ∧
      s.Show.cached_weekday_ = s.cached_weekday_ ∧
      s.Show.cached_time_ = s.cached_time_ ∧
      s.Show.current_temperature_ = s.current_temperature_ ∧
      s.Show.current_humidity_ = s.current_humidity_) ∧
    (s.Show.UpdateTimeUI.date_label_ = some s.cached_date_ ∧
      s.Show.UpdateTimeUI.weekday_label_ = some s.cached_weekday_ ∧
      s.Show.UpdateTimeUI.time_label_ = some s.cached_time_) ∧
    (s.Show.UpdateTemperatureHumidityUI.temperature_label_ =
        some (temp_buf s.current_temperature_) ∧
      s.Show.UpdateTemperatureHumidityUI.humidity_label_ =
        some (humi_buf s.current_humidity_)) := by
  rw [Show_of_hidden s hv hc]
  refine ⟨⟨rfl, rfl, rfl, rfl, rfl, rfl⟩, ⟨rfl, rfl, rfl, rfl, rfl⟩, ?_, ?_⟩
  · simp [StandbyScreen.UpdateTimeUI, lv_label_set_text]
  · simp [StandbyScreen.UpdateTemperatureHumidityUI, lv_label_set_text]

/-- Witness for C8 (amended): `recordedScreen` shown and then refreshed. -/
theorem C8_show_then_refresh_witness :
    recordedScreen.is_visible_ = false ∧ recordedScreen.container_ = none ∧
    recordedScreen.Show.temperature_label_ = some "--.-°C" ∧
    recordedScreen.Show.UpdateTimeUI.date_label_ = some "2024-01-02" ∧
    recordedScreen.Show.UpdateTimeUI.weekday_label_ = some "周二" ∧
    recordedScreen.Show.UpdateTimeUI.time_label_ = some "03:04:05" ∧
    recordedScreen.Show.UpdateTemperatureHumidityUI.temperature_label_ = some "25.0°C" ∧
    recordedScreen.Show.UpdateTemperatureHumidityUI.humidity_label_ = some "50.0%" := by
  have h := C8_show_then_refresh recordedScreen rfl rfl
  refine ⟨rfl, rfl, h.1.2.2.2.2.1, h.2.2.1.1, h.2.2.1.2.1, h.2.2.1.2.2, ?_, ?_⟩
  · rw [h.2.2.2.1]
    decide!
  · rw [h.2.2.2.2]
    decide!

/-- C9: on a hidden screen the deferred `UpdateTimeUI` and
`UpdateTemperatureHumidityUI` change nothing: no label is written and the whole state,
the record of calls included, stays as it is, whatever the cached strings and values
are.  In particular this holds for the state that any `Hide` leaves behind. -/
theorem C9_deferred_update_when_hidden (s s0 : StandbyScreen) (h : s.is_visible_ = false) :
    s.UpdateTimeUI = s ∧
    s.UpdateTemperatureHumidityUI = s ∧
    s.UpdateTimeUI.label_writes = s.label_writes ∧
    s.UpdateTemperatureHumidityUI.label_writes = s.label_writes ∧
    s0.Hide.UpdateTimeUI = s0.Hide ∧
    s0.Hide.UpdateTemperatureHumidityUI = s0.Hide := by
  refine ⟨UpdateTimeUI_of_hidden s h, UpdateTemperatureHumidityUI_of_hidden s h, ?_, ?_,
    UpdateTimeUI_of_hidden _ (Hide_hidden s0),
    UpdateTemperatureHumidityUI_of_hidden _ (Hide_hidden s0)⟩
  · rw [UpdateTimeUI_of_hidden s h]
  · rw [UpdateTemperatureHumidityUI_of_hidden s h]

/-- Witness for C9: the hidden `recordedScreen`, and the shown `recordedScreen` that
receives an update and is hidden before the deferred calls run. -/
theorem C9_deferred_update_when_hidden_witness :
    recordedScreen.is_visible_ = false ∧
    recordedScreen.UpdateTimeUI = recordedScreen ∧
    recordedScreen.UpdateTemperatureHumidityUI = recordedScreen ∧
    ((recordedScreen.Show.UpdateTemperatureHumidity (CFloat.num 26) (CFloat.num 51)).Hide
      ).UpdateTemperatureHumidityUI =
      (recordedScreen.Show.UpdateTemperatureHumidity (CFloat.num 26) (CFloat.num 51)).Hide :=
  have h := C9_deferred_update_when_hidden recordedScreen
    (recordedScreen.Show.UpdateTemperatureHumidity (CFloat.num 26) (CFloat.num 51)) rfl
  ⟨rfl, h.1, h.2.1, h.2.2.2.2.2⟩

theorem Hide_Hide (s : StandbyScreen) : s.Hide.Hide = s.Hide :=
  Hide_of_hidden _ (Hide_hidden s)

theorem Show_Show (s : StandbyScreen) : s.Show.Show = s.Show :=
  Show_of_visible _ (Show_visible s)

theorem idleListeningIdle_oled (b : CompactWifiBoard) (s : StandbyScreen)
    (ho : b.display_ = Display.OledDisplay) : idleListeningIdle b s = s.Hide.Show := by
  simp [idleListeningIdle, CompactWifiBoard.OnDeviceStateChanged, ho, Display.isOled,
    deliverShowHide, OledDisplay.ShowStandbyScreen]

theorem Hide_Show_of_visible (s : StandbyScreen) (hv : s.is_visible_ = true)
    (hc : s.container_ ≠ none) :
    s.Hide.Show.is_visible_ = true ∧
    s.Hide.Show.container_ ≠ none ∧
    s.Hide.Show.calls = s.calls ++
      [ LvCall.timer_stop, LvCall.obj_del_container,
        LvCall.obj_create_container,
        LvCall.label_set_text LabelId.date_label_ "",
        LvCall.label_set_text LabelId.weekday_label_ "",
        LvCall.label_set_text LabelId.time_label_ "--:--",
        LvCall.label_set_text LabelId.temp_icon_ (LV_SYMBOL_IMAGE ++ "°C"),
        LvCall.label_set_text LabelId.temperature_label_ "--.-°C",
        LvCall.label_set_text LabelId.humidity_icon_ (LV_SYMBOL_SETTINGS ++ "%"),
        LvCall.label_set_text LabelId.humidity_label_ "--.-%",
        LvCall.timer_start_periodic ] := by
  rw [Hide_of_visible s hv hc, Show_of_hidden _ rfl rfl]
  simp

/-- C10: `Hide` and `Show` are idempotent on the whole screen state: `Hide` after
`Hide` equals one `Hide` (a `Hide` on a hidden screen changes nothing) and `Show`
after `Show` equals one `Show` (a `Show` on a visible screen changes nothing).  For
the device-state sequence Idle → Listening → Idle on a board with an OLED display,
starting from a visible screen with its widgets, the screen is hidden in between, the
widget tree is destroyed exactly once and created exactly once, and the screen ends
visible with widgets. -/
theorem C10_show_hide_idempotent (s : StandbyScreen) (b : CompactWifiBoard) :
    s.Hide.Hide = s.Hide ∧
    s.Show.Show = s.Show ∧
    (s.is_visible_ = false → s.Hide = s) ∧
    (s.is_visible_ = true → s.Show = s) ∧
    (s.is_visible_ = true → s.container_ ≠ none → b.display_ = Display.OledDisplay →
      (deliverShowHide s (b.OnDeviceStateChanged DeviceState.kDeviceStateIdle
          DeviceState.kDeviceStateListening)).is_visible_ = false ∧
      (deliverShowHide s (b.OnDeviceStateChanged DeviceState.kDeviceStateIdle
          DeviceState.kDeviceStateListening)).container_ = none ∧
      (idleListeningIdle b s).is_visible_ = true ∧
      (idleListeningIdle b s).container_ ≠ none ∧
      (idleListeningIdle b s).destroyed = s.destroyed + 1 ∧
      (idleListeningIdle b s).created = s.created + 1) := by
  refine ⟨Hide_Hide s, Show_Show s, Hide_of_hidden s, Show_of_visible s, fun hv hc ho => ?_⟩
  have h1 : deliverShowHide s (b.OnDeviceStateChanged DeviceState.kDeviceStateIdle
      DeviceState.kDeviceStateListening) = s.Hide := by
    simp [CompactWifiBoard.OnDeviceStateChanged, ho, Display.isOled, deliverShowHide,
      OledDisplay.ShowStandbyScreen]
  have h2 := Hide_Show_of_visible s hv hc
  rw [h1, idleListeningIdle_oled b s ho]
  refine ⟨Hide_hidden s, ?_, h2.1, h2.2.1, ?_, ?_⟩
  · rw [Hide_of_visible s hv hc]
  · unfold StandbyScreen.destroyed
    rw [h2.2.2]
    simp [List.count_append, List.count_cons]
  · unfold StandbyScreen.created
    rw [h2.2.2]
    simp [List.count_append, List.count_cons]

/-- Witness for C10: the shown `recordedScreen` on `sampleBoard`. -/
theorem C10_show_hide_idempotent_witness :
    recordedScreen.Show.is_visible_ = true ∧
    recordedScreen.Show.container_ ≠ none ∧
    sampleBoard.display_ = Display.OledDisplay ∧
    (idleListeningIdle sampleBoard recordedScreen.Show).is_visible_ = true ∧
    (idleListeningIdle sampleBoard recordedScreen.Show).destroyed =
      recordedScreen.Show.destroyed + 1 ∧
    (idleListeningIdle sampleBoard recordedScreen.Show).created =
      recordedScreen.Show.created + 1 :=
  have h := (C10_show_hide_idempotent recordedScreen.Show sampleBoard).2.2.2.2
    (Show_visible recordedScreen) (by decide) rfl
  ⟨Show_visible recordedScreen, by decide, rfl, h.2.2.1, h.2.2.2.2.1, h.2.2.2.2.2⟩

/-! ## Numeric claims about `ReadData` -/

theorem raw_humidity_lt (d : Response) : raw_humidity d < 2 ^ 20 := by
  have h1 := d.b1.isLt
  have h2 := d.b2.isLt
  have h3 := d.b3.isLt
  rw [raw_humidity_eq]
  omega

theorem raw_temperature_lt (d : Response) : raw_temperature d < 2 ^ 20 := by
  have h3 := d.b3.isLt
  have h4 := d.b4.isLt
  have h5 := d.b5.isLt
  rw [raw_temperature_eq]
  omega

theorem raw_humidity_inj (d e : Response) :
    raw_humidity d = raw_humidity e ↔
      d.b1 = e.b1 ∧ d.b2 = e.b2 ∧ d.b3.val / 16 = e.b3.val / 16 := by
  have h1 := d.b1.isLt
  have h2 := d.b2.isLt
  have h3 := d.b3.isLt
  have k1 := e.b1.isLt
  have k2 := e.b2.isLt
  have k3 := e.b3.isLt
  rw [raw_humidity_eq, raw_humidity_eq]
  constructor
  · intro h
    refine ⟨Fin.ext ?_, Fin.ext ?_, ?_⟩ <;> omega
  · rintro ⟨a, b, c⟩
    rw [a, b, c]

theorem raw_temperature_inj (d e : Response) :
    raw_temperature d = raw_temperature e ↔
      d.b3.val % 16 = e.b3.val % 16 ∧ d.b4 = e.b4 ∧ d.b5 = e.b5 := by
  have h3 := d.b3.isLt
  have h4 := d.b4.isLt
  have h5 := d.b5.isLt
  have k3 := e.b3.isLt
  have k4 := e.b4.isLt
  have k5 := e.b5.isLt
  rw [raw_temperature_eq, raw_temperature_eq]
  constructor
  · intro h
    refine ⟨?_, Fin.ext ?_, Fin.ext ?_⟩ <;> omega
  · rintro ⟨a, b, c⟩
    rw [a, b, c]

/-- The conversion of an integer below `2 ^ 24` to `float` is finite, non-negative and
not above the integer. -/
theorem natCast_facts (n : ℕ) (h : n < 16777216) :
    (n : CFloat).isFinite = true ∧ (n : CFloat).sign = false ∧ (n : CFloat).absRat ≤ (n : ℚ) := by
  have h0 : (0 : ℚ) ≤ (n : ℚ) := Nat.cast_nonneg n
  have hd : decide ((n : ℚ) < 0) = false := decide_eq_false (not_lt.2 h0)
  have hp : pow2 0 = 1 := by decide!
  obtain ⟨r1, r2, r3⟩ := round_nonneg_le false |(n : ℚ)| n 0 (abs_nonneg _)
    (by rw [abs_of_nonneg h0, hp, mul_one]) h (by norm_num) (by norm_num)
  show (CFloat.num (n : ℚ)).isFinite = true ∧ (CFloat.num (n : ℚ)).sign = false ∧
    (CFloat.num (n : ℚ)).absRat ≤ (n : ℚ)
  unfold CFloat.num
  rw [hd]
  rw [hp, mul_one] at r3
  exact ⟨r1, r2, r3⟩

/-- The value of a non-negative `float`. -/
theorem toRat_of_sign_false (x : CFloat) (h : x.sign = false) : x.toRat = x.absRat := by
  unfold CFloat.toRat
  rw [h]
  rfl

/-- A zero of either sign is finite and has the value `0`. -/
theorem zero_mag_facts (y : CFloat) (h : y.mag.val = 0) :
    y.isFinite = true ∧ y.toRat = 0 := by
  have hy : y = CFloat.zero y.sign := by
    cases y with
    | mk s m =>
      have : m = 0 := Fin.ext h
      rw [this]
      rfl
  rw [hy]
  exact ⟨(zero_facts _).1, (zero_facts _).2.2.2⟩

/-- The humidity scaling of `ReadData` on a 20-bit field, in binary32: the result is
finite and lies in `[0, 13107188 / 131072]`, below `100`. -/
theorem humidity_scaled_range (n : ℕ) (h : n < 2 ^ 20) (off : CFloat) (hoff : off.mag.val = 0) :
    ((n : CFloat) * 100 / 1048576 + off).isFinite = true ∧
    0 ≤ ((n : CFloat) * 100 / 1048576 + off).toRat ∧
    ((n : CFloat) * 100 / 1048576 + off).toRat < 100 := by
  obtain ⟨a1, a2, a3⟩ := natCast_facts n (by omega)
  have hn : (n : ℚ) ≤ 1048575 := by
    have : n ≤ 1048575 := by omega
    exact_mod_cast this
  have c1 : (100 : CFloat).isFinite = true := by decide!
  have c2 : (100 : CFloat).sign = false := by decide!
  have c3 : (100 : CFloat).absRat = 100 := by decide!
  have d1 : (1048576 : CFloat).isFinite = true := by decide!
  have d2 : (1048576 : CFloat).sign = false := by decide!
  have d3 : (1048576 : CFloat).absRat = 1048576 := by decide!
  have d4 : (1048576 : CFloat).mag.val ≠ 0 := by decide!
  have p3 : pow2 3 = 8 := by decide!
  have p17 : pow2 (-17) = 1 / 131072 := by decide!
  have p0 : pow2 0 = 1 := by decide!
  obtain ⟨m1, m2, m3⟩ := mul_nonneg_le (n : CFloat) 100 13107188 3 a1 c1 a2 c2
    (by rw [c3, p3]
        push_cast
        linarith)
    (by norm_num) (by norm_num) (by norm_num)
  obtain ⟨q1, q2, q3⟩ := div_nonneg_le ((n : CFloat) * 100) 1048576 13107188 (-17) m1 d1 m2 d2 d4
    (by rw [d3, p17, div_le_iff₀ (by norm_num)]
        rw [p3] at m3
        push_cast at m3 ⊢
        linarith)
    (by norm_num) (by norm_num) (by norm_num)
  obtain ⟨z1, z2⟩ := zero_mag_facts off hoff
  have hx := toRat_of_sign_false _ q2
  have hq0 := absRat_nonneg ((n : CFloat) * 100 / 1048576)
  obtain ⟨s1, s2, s3⟩ := add_range ((n : CFloat) * 100 / 1048576) off 0 13107188 0 (-17) q1 z1
    (by rw [hx, z2, p0]; push_cast; linarith)
    (by rw [hx, z2, add_zero]; exact q3)
    (by norm_num) (by norm_num) (by norm_num) (by norm_num) (by norm_num) (by norm_num)
  refine ⟨s1, ?_, ?_⟩
  · rw [p0] at s2
    push_cast at s2
    linarith
  · rw [p17] at s3
    push_cast at s3
    have : (13107188 : ℚ) * (1 / 131072) < 100 := by norm_num
    linarith

/-- The temperature scaling of `ReadData` on a 20-bit field, in binary32: the result is
finite and lies in `[-50, 9830388 / 65536]`, below `150`. -/
theorem temperature_scaled_range (n : ℕ) (h : n < 2 ^ 20) (off : CFloat)
    (hoff : off.mag.val = 0) :
    ((n : CFloat) * 200 / 1048576 - 50 + off).isFinite = true ∧
    -50 ≤ ((n : CFloat) * 200 / 1048576 - 50 + off).toRat ∧
    ((n : CFloat) * 200 / 1048576 - 50 + off).toRat < 150 := by
  obtain ⟨a1, a2, a3⟩ := natCast_facts n (by omega)
  have hn : (n : ℚ) ≤ 1048575 := by
    have : n ≤ 1048575 := by omega
    exact_mod_cast this
  have c1 : (200 : CFloat).isFinite = true := by decide!
  have c2 : (200 : CFloat).sign = false := by decide!
  have c3 : (200 : CFloat).absRat = 200 := by decide!
  have d1 : (1048576 : CFloat).isFinite = true := by decide!
  have d2 : (1048576 : CFloat).sign = false := by decide!
  have d3 : (1048576 : CFloat).absRat = 1048576 := by decide!
  have d4 : (1048576 : CFloat).mag.val ≠ 0 := by decide!
  have e1 : (50 : CFloat).isFinite = true := by decide!
  have e2 : (50 : CFloat).toRat = 50 := by decide!
  have p4 : pow2 4 = 16 := by decide!
  have p16 : pow2 (-16) = 1 / 65536 := by decide!
  have p0 : pow2 0 = 1 := by decide!
  obtain ⟨m1, m2, m3⟩ := mul_nonneg_le (n : CFloat) 200 13107188 4 a1 c1 a2 c2
    (by rw [c3, p4]
        push_cast
        linarith)
    (by norm_num) (by norm_num) (by norm_num)
  obtain ⟨q1, q2, q3⟩ := div_nonneg_le ((n : CFloat) * 200) 1048576 13107188 (-16) m1 d1 m2 d2 d4
    (by rw [d3, p16, div_le_iff₀ (by norm_num)]
        rw [p4] at m3
        push_cast at m3 ⊢
        linarith)
    (by norm_num) (by norm_num) (by norm_num)
  obtain ⟨z1, z2⟩ := zero_mag_facts off hoff
  have hx := toRat_of_sign_false _ q2
  have hq0 := absRat_nonneg ((n : CFloat) * 200 / 1048576)
  obtain ⟨n1, n2⟩ := neg_facts (50 : CFloat)
  have q3' := q3
  rw [p16] at q3'
  push_cast at q3'
  obtain ⟨t1, t2, t3⟩ := add_range ((n : CFloat) * 200 / 1048576) (-(50 : CFloat))
    50 9830388 0 (-16) q1 (by rw [n1]; exact e1)
    (by rw [hx, n2, e2, p0]; push_cast; linarith)
    (by rw [hx, n2, e2, p16]; push_cast; linarith)
    (by norm_num) (by norm_num) (by norm_num) (by norm_num) (by norm_num) (by norm_num)
  rw [sub_eq_add_neg']
  obtain ⟨s1, s2, s3⟩ := add_range ((n : CFloat) * 200 / 1048576 + -(50 : CFloat)) off
    50 9830388 0 (-16) t1 z1
    (by rw [z2, add_zero]; exact t2)
    (by rw [z2, add_zero]; exact t3)
    (by norm_num) (by norm_num) (by norm_num) (by norm_num) (by norm_num) (by norm_num)
  refine ⟨s1, ?_, ?_⟩
  · rw [p0] at s2
    push_cast at s2
    linarith
  · rw [p16] at s3
    push_cast at s3
    have : (9830388 : ℚ) * (1 / 65536) < 150 := by norm_num
    linarith

theorem humidity19999_ready : humidity19999Response.ready := by decide

theorem humidity19999_raw : raw_humidity humidity19999Response = 0x19999 := by decide

/-- C13 (as stated, refuted): a sensor with both offsets zero reads the response whose
raw humidity field is `0x19999`.  `ReadData` returns true and the humidity
`100 * 0x19999 / 1048576` (exactly: no binary32 operation rounds here), but this value
does not lie between 9.765 and 9.775, so it does not round to 9.77 at two decimals; it
exceeds 9.99. -/
theorem C13_humidity_19999_is_not_9_77 :
    raw_humidity humidity19999Response = 0x19999 ∧
    ((DHT20Sensor.ctor ESP_OK).ReadData (okExchange humidity19999Response) 0 0).ret = true ∧
    ((DHT20Sensor.ctor ESP_OK).ReadData (okExchange humidity19999Response) 0 0).humidity.isFinite
      = true ∧
    ((DHT20Sensor.ctor ESP_OK).ReadData (okExchange humidity19999Response) 0 0).humidity.toRat =
      100 * 0x19999 / 1048576 ∧
    ¬ ((9765 : ℚ) / 1000 ≤
        ((DHT20Sensor.ctor ESP_OK).ReadData (okExchange humidity19999Response) 0
          0).humidity.toRat ∧
      ((DHT20Sensor.ctor ESP_OK).ReadData (okExchange humidity19999Response) 0
          0).humidity.toRat ≤ (9775 : ℚ) / 1000) ∧
    (999 : ℚ) / 100 <
      ((DHT20Sensor.ctor ESP_OK).ReadData (okExchange humidity19999Response) 0
        0).humidity.toRat := by
  refine ⟨humidity19999_raw, ?_⟩
  rw [ReadData_ok (DHT20Sensor.ctor ESP_OK) (okExchange humidity19999Response) 0 0 rfl
    (okExchange_ok _) humidity19999_ready]
  simp only [okExchange, humidity19999_raw, DHT20Sensor.ctor]
  decide!

/-- The binary32 evaluation of the humidity formula at the raw field `0x19999` with a
zero offset. -/
theorem humidity19999_value :
    ((((0x19999 : ℕ) : CFloat) * 100 / 1048576 + 0).isFinite = true) ∧
    (((0x19999 : ℕ) : CFloat) * 100 / 1048576 + 0).toRat = 100 * 0x19999 / 1048576 ∧
    (((0x19999 : ℕ) : CFloat) * 100 / 1048576 + 0).toRat = 2621425 / 262144 ∧
    (9995 : ℚ) / 1000 ≤ (((0x19999 : ℕ) : CFloat) * 100 / 1048576 + 0).toRat ∧
    (((0x19999 : ℕ) : CFloat) * 100 / 1048576 + 0).toRat < (10005 : ℚ) / 1000 ∧
    |(((0x19999 : ℕ) : CFloat) * 100 / 1048576 + 0).toRat - 999994 / 100000| < 1 / 100000 := by
  have h : (((0x19999 : ℕ) : CFloat) * 100 / 1048576 + 0).toRat = 2621425 / 262144 := by decide!
  refine ⟨by decide!, ?_, h, ?_, ?_, ?_⟩
  · rw [h]; norm_num
  · rw [h]; norm_num
  · rw [h]; norm_num
  · rw [h, abs_lt]; norm_num

/-- C13 (amended): for every response whose decoded raw humidity field is `0x19999`
(status bit clear, successful exchange, initialised sensor), with a zero humidity
offset, `ReadData` yields the finite binary32 value `100 * 0x19999 / 1048576` (no
operation rounds); that value is `2621425 / 262144`, about 9.99994, and rounds to
10.00 at two decimals (it lies between 9.995 and 10.005). -/
theorem C13_humidity_19999 (s : DHT20Sensor) (io : I2cExchange) (t0 h0 : CFloat)
    (hinit : s.initialized_ = true) (hio : io.ok) (hready : io.data.ready)
    (hraw : raw_humidity io.data = 0x19999) (hoff : s.humidity_offset_ = 0) :
    (s.ReadData io t0 h0).ret = true ∧
    (s.ReadData io t0 h0).humidity.isFinite = true ∧
    (s.ReadData io t0 h0).humidity.toRat = 100 * 0x19999 / 1048576 ∧
    (s.ReadData io t0 h0).humidity.toRat = 2621425 / 262144 ∧
    (9995 : ℚ) / 1000 ≤ (s.ReadData io t0 h0).humidity.toRat ∧
    (s.ReadData io t0 h0).humidity.toRat < (10005 : ℚ) / 1000 ∧
    |(s.ReadData io t0 h0).humidity.toRat - 999994 / 100000| < 1 / 100000 := by
  rw [ReadData_ok s io t0 h0 hinit hio hready]
  simp only [hraw, hoff]
  exact ⟨trivial, humidity19999_value⟩

/-- Witness for C13 (amended): the just-constructed sensor reading
`humidity19999Response`. -/
theorem C13_humidity_19999_witness :
    raw_humidity (okExchange humidity19999Response).data = 0x19999 ∧
    ((DHT20Sensor.ctor ESP_OK).ReadData (okExchange humidity19999Response) 0
      0).humidity.toRat = 2621425 / 262144 :=
  ⟨humidity19999_raw,
    (C13_humidity_19999 (DHT20Sensor.ctor ESP_OK) (okExchange humidity19999Response) 0 0 rfl
      (okExchange_ok _) humidity19999_ready humidity19999_raw rfl).2.2.2.1⟩

/-- C14: for every response (in particular every one with the status bit clear) the
two decoded raw fields are below `2 ^ 20`; the humidity field is determined by, and
determines, bytes 1 and 2 and the high nibble of byte 3, the temperature field the low
nibble of byte 3 and bytes 4 and 5, so the two use disjoint bits; and with zero
offsets (`+0.0f` or `-0.0f`) a successful `ReadData` yields finite binary32 values
with `0 ≤ humidity < 100` and `-50 ≤ temperature < 150`, every operation of the two
formulas being rounded to binary32. -/
theorem C14_raw_fields_and_ranges (s : DHT20Sensor) (io : I2cExchange) (e : Response)
    (t0 h0 : CFloat) (hinit : s.initialized_ = true) (hio : io.ok) (hready : io.data.ready)
    (hoff_t : s.temperature_offset_.mag.val = 0) (hoff_h : s.humidity_offset_.mag.val = 0) :
    raw_humidity io.data < 2 ^ 20 ∧
    raw_temperature io.data < 2 ^ 20 ∧
    (raw_humidity io.data = raw_humidity e ↔
      io.data.b1 = e.b1 ∧ io.data.b2 = e.b2 ∧ io.data.b3.val / 16 = e.b3.val / 16) ∧
    (raw_temperature io.data = raw_temperature e ↔
      io.data.b3.val % 16 = e.b3.val % 16 ∧ io.data.b4 = e.b4 ∧ io.data.b5 = e.b5) ∧
    (s.ReadData io t0 h0).ret = true ∧
    (s.ReadData io t0 h0).humidity.isFinite = true ∧
    0 ≤ (s.ReadData io t0 h0).humidity.toRat ∧
    (s.ReadData io t0 h0).humidity.toRat < 100 ∧
    (s.ReadData io t0 h0).temperature.isFinite = true ∧
    -50 ≤ (s.ReadData io t0 h0).temperature.toRat ∧
    (s.ReadData io t0 h0).temperature.toRat < 150 := by
  obtain ⟨hh1, hh2, hh3⟩ := humidity_scaled_range (raw_humidity io.data)
    (raw_humidity_lt io.data) s.humidity_offset_ hoff_h
  obtain ⟨ht1, ht2, ht3⟩ := temperature_scaled_range (raw_temperature io.data)
    (raw_temperature_lt io.data) s.temperature_offset_ hoff_t
  rw [ReadData_ok s io t0 h0 hinit hio hready]
  exact ⟨raw_humidity_lt _, raw_temperature_lt _, raw_humidity_inj _ _,
    raw_temperature_inj _ _, rfl, hh1, hh2, hh3, ht1, ht2, ht3⟩

theorem fullScale_ready : fullScaleResponse.ready := by decide

/-- Witness for C14: the just-constructed sensor reading `fullScaleResponse`, both raw
fields at their largest value `0xFFFFF`: the humidity is `3276797 / 32768`
(99.99991) and the temperature `2457597 / 16384` (149.99982). -/
theorem C14_raw_fields_and_ranges_witness :
    (DHT20Sensor.ctor ESP_OK).initialized_ = true ∧ (okExchange fullScaleResponse).ok ∧
    (okExchange fullScaleResponse).data.ready ∧
    (DHT20Sensor.ctor ESP_OK).temperature_offset_.mag.val = 0 ∧
    (DHT20Sensor.ctor ESP_OK).humidity_offset_.mag.val = 0 ∧
    ((DHT20Sensor.ctor ESP_OK).ReadData (okExchange fullScaleResponse) 0 0).humidity.isFinite
      = true ∧
    0 ≤ ((DHT20Sensor.ctor ESP_OK).ReadData (okExchange fullScaleResponse) 0
      0).humidity.toRat ∧
    ((DHT20Sensor.ctor ESP_OK).ReadData (okExchange fullScaleResponse) 0 0).humidity.toRat
      < 100 ∧
    ((DHT20Sensor.ctor ESP_OK).ReadData (okExchange fullScaleResponse) 0
      0).temperature.isFinite = true ∧
    -50 ≤ ((DHT20Sensor.ctor ESP_OK).ReadData (okExchange fullScaleResponse) 0
      0).temperature.toRat ∧
    ((DHT20Sensor.ctor ESP_OK).ReadData (okExchange fullScaleResponse) 0
      0).temperature.toRat < 150 :=
  ⟨rfl, okExchange_ok _, fullScale_ready, by decide!, by decide!,
    (C14_raw_fields_and_ranges (DHT20Sensor.ctor ESP_OK) (okExchange fullScaleResponse)
      fullScaleResponse 0 0 rfl (okExchange_ok _) fullScale_ready (by decide!)
      (by decide!)).2.2.2.2.2⟩

/-- C16: the outcome of `ReadData` (return value, values written to the caller, sensor
after the call with its cached values) depends on the response only through the top
bit of byte 0 and bytes 1 to 5: two exchanges with the same bus status codes whose
responses agree on those bits give the same outcome, whatever the low seven bits of
byte 0 and byte 6, the checksum, are. -/
theorem C16_ReadData_ignores_checksum (s : DHT20Sensor) (io io2 : I2cExchange)
    (t0 h0 : CFloat)
    (htx : io.transmit_ret = io2.transmit_ret) (hrx : io.receive_ret = io2.receive_ret)
    (hbit : io.data.b0.val &&& 0x80 = io2.data.b0.val &&& 0x80)
    (h1 : io.data.b1 = io2.data.b1) (h2 : io.data.b2 = io2.data.b2)
    (h3 : io.data.b3 = io2.data.b3) (h4 : io.data.b4 = io2.data.b4)
    (h5 : io.data.b5 = io2.data.b5) :
    s.ReadData io t0 h0 = s.ReadData io2 t0 h0 := by
  have hh : raw_humidity io.data = raw_humidity io2.data :=
    (raw_humidity_inj _ _).2 ⟨h1, h2, by rw [h3]⟩
  have ht : raw_temperature io.data = raw_temperature io2.data :=
    (raw_temperature_inj _ _).2 ⟨by rw [h3], h4, h5⟩
  unfold DHT20Sensor.ReadData
  rw [htx, hrx, hbit, hh, ht]

/-- Witness for C16: `sampleResponse` against the same data bytes with status byte
`0x7F` and checksum byte `0xFF`. -/
theorem C16_ReadData_ignores_checksum_witness :
    sampleSensor.ReadData (okExchange sampleResponse) 0 0 =
      sampleSensor.ReadData (okExchange ⟨0x7F, 0x80, 0x00, 0x06, 0x00, 0x00, 0xFF⟩) 0 0 :=
  C16_ReadData_ignores_checksum sampleSensor (okExchange sampleResponse)
    (okExchange ⟨0x7F, 0x80, 0x00, 0x06, 0x00, 0x00, 0xFF⟩) 0 0 rfl rfl (by decide) rfl rfl
    rfl rfl rfl

/-! ## The tick without a usable sensor -/

/-- C12 (evaluation at the failing input): a board whose sensor failed to initialise
(`i2c_master_bus_add_device` returned `ESP_FAIL`) gets its first timer firing in the
idle state.  The clock strings are formatted and delivered, and the temperature and
humidity passed to the display are the number `0`, the initial value of
`last_temperature_` and `last_humidity_`; the same holds for a board whose
`dht20_sensor_` is null.  The standby screen prints the number `0` as "0.0°C" and
"0.0%", while its placeholder texts are reserved for NaN. -/
theorem C12_first_tick_reports_zero (io : I2cExchange) :
    (CompactWifiBoard.ctor ESP_OK ESP_FAIL).UpdateStandbyScreen DeviceState.kDeviceStateIdle
        sampleTime io =
      (CompactWifiBoard.ctor ESP_OK ESP_FAIL,
        [OledCall.UpdateStandbyData "2024-01-02 星期二" "03:04:05" 0 0]) ∧
    ({ display_ := Display.OledDisplay, dht20_sensor_ := none, last_temperature_ := 0,
       last_humidity_ := 0 } : CompactWifiBoard).UpdateStandbyScreen
        DeviceState.kDeviceStateIdle sampleTime io =
      ({ display_ := Display.OledDisplay, dht20_sensor_ := none, last_temperature_ := 0,
         last_humidity_ := 0 },
        [OledCall.UpdateStandbyData "2024-01-02 星期二" "03:04:05" 0 0]) ∧
    temp_buf 0 = "0.0°C" ∧
    humi_buf 0 = "0.0%" ∧
    temp_buf CFloat.nan = "--.-°C" ∧
    humi_buf CFloat.nan = "--.-%" := by
  refine ⟨?_, ?_, by decide!, by decide!, by decide!, by decide!⟩
  · rw [tick_idle_uninitialized (CompactWifiBoard.ctor ESP_OK ESP_FAIL) sampleTime io
      (DHT20Sensor.ctor ESP_FAIL) rfl (by decide)]
    simp only [tickCalls, sample_date_str, sample_time_str]
    rfl
  · rw [tick_idle_no_sensor _ sampleTime io rfl]
    simp only [tickCalls, sample_date_str, sample_time_str]
    rfl

/-! ## The visibility invariant of `StandbyScreen` -/

theorem ctor_hidden (width height : Int) :
    (StandbyScreen.ctor width height).is_visible_ = false ∧
    (StandbyScreen.ctor width height).widgetsNull :=
  ⟨rfl, rfl, rfl, rfl, rfl, rfl, rfl⟩

/-- Every call keeps the screen either visible with all widgets present or hidden with
all widget pointers null. -/
theorem step_keeps_widgets (s : StandbyScreen) (op : ScreenOp)
    (h : (s.is_visible_ = true ∧ s.widgetsPresent) ∨ (s.is_visible_ = false ∧ s.widgetsNull)) :
    ((s.step op).is_visible_ = true ∧ (s.step op).widgetsPresent) ∨
    ((s.step op).is_visible_ = false ∧ (s.step op).widgetsNull) := by
  unfold StandbyScreen.widgetsPresent StandbyScreen.widgetsNull at *
  rcases h with ⟨hv, hc, hd, hw, ht, hT, hH⟩ | ⟨hv, hc, hd, hw, ht, hT, hH⟩
  · cases op with
    | Show => left; simp [StandbyScreen.step, StandbyScreen.Show, hv, hc, hd, hw, ht, hT, hH]
    | Hide =>
      right
      simp [StandbyScreen.step, StandbyScreen.Hide, StandbyScreen.DestroyUI, hv, hc]
    | UpdateTime d w t =>
      left; simp [StandbyScreen.step, StandbyScreen.UpdateTime, hv, hc, hd, hw, ht, hT, hH]
    | UpdateTemperatureHumidity t h =>
      left
      simp [StandbyScreen.step, StandbyScreen.UpdateTemperatureHumidity, hv, hc, hd, hw, ht,
        hT, hH]
    | UpdateTimeUI =>
      left
      simp [StandbyScreen.step, StandbyScreen.UpdateTimeUI, lv_label_set_text, hv, hc, hd, hw,
        ht, hT, hH]
    | UpdateTemperatureHumidityUI =>
      left
      simp [StandbyScreen.step, StandbyScreen.UpdateTemperatureHumidityUI, lv_label_set_text,
        hv, hc, hd, hw, ht, hT, hH]
  · cases op with
    | Show =>
      left
      simp [StandbyScreen.step, StandbyScreen.Show, StandbyScreen.CreateUI, hv, hc]
    | Hide => right; simp [StandbyScreen.step, StandbyScreen.Hide, hv, hc, hd, hw, ht, hT, hH]
    | UpdateTime d w t =>
      right; simp [StandbyScreen.step, StandbyScreen.UpdateTime, hv, hc, hd, hw, ht, hT, hH]
    | UpdateTemperatureHumidity t h =>
      right
      simp [StandbyScreen.step, StandbyScreen.UpdateTemperatureHumidity, hv, hc, hd, hw, ht,
        hT, hH]
    | UpdateTimeUI =>
      right
      simp [StandbyScreen.step, StandbyScreen.UpdateTimeUI, hv, hc, hd, hw, ht, hT, hH]
    | UpdateTemperatureHumidityUI =>
      right
      simp [StandbyScreen.step, StandbyScreen.UpdateTemperatureHumidityUI, hv, hc, hd, hw, ht,
        hT, hH]

theorem run_keeps_widgets (ops : List ScreenOp) (s : StandbyScreen)
    (h : (s.is_visible_ = true ∧ s.widgetsPresent) ∨ (s.is_visible_ = false ∧ s.widgetsNull)) :
    ((s.run ops).is_visible_ = true ∧ (s.run ops).widgetsPresent) ∨
    ((s.run ops).is_visible_ = false ∧ (s.run ops).widgetsNull) := by
  induction ops generalizing s with
  | nil => exact h
  | cons op rest ih => exact ih (s.step op) (step_keeps_widgets s op h)

theorem reachable_widgets (width height : Int) (ops : List ScreenOp) :
    (((StandbyScreen.ctor width height).run ops).is_visible_ = true ∧
      ((StandbyScreen.ctor width height).run ops).widgetsPresent) ∨
    (((StandbyScreen.ctor width height).run ops).is_visible_ = false ∧
      ((StandbyScreen.ctor width height).run ops).widgetsNull) :=
  run_keeps_widgets ops _ (Or.inr (ctor_hidden width height))

/-- C15: in every state reached from a freshly constructed `StandbyScreen` by any
sequence of `Show`, `Hide`, `UpdateTime`, `UpdateTemperatureHumidity` and runs of the
deferred `UpdateTimeUI` and `UpdateTemperatureHumidityUI`, `is_visible_` is true if and
only if `container_` and the five label pointers are all non-null, and false if and
only if they are all null. -/
theorem C15_visible_iff_widgets (width height : Int) (ops : List ScreenOp) :
    (((StandbyScreen.ctor width height).run ops).is_visible_ = true ↔
      (((StandbyScreen.ctor width height).run ops).container_ ≠ none ∧
        ((StandbyScreen.ctor width height).run ops).date_label_ ≠ none ∧
        ((StandbyScreen.ctor width height).run ops).weekday_label_ ≠ none ∧
        ((StandbyScreen.ctor width height).run ops).time_label_ ≠ none ∧
        ((StandbyScreen.ctor width height).run ops).temperature_label_ ≠ none ∧
        ((StandbyScreen.ctor width height).run ops).humidity_label_ ≠ none)) ∧
    (((StandbyScreen.ctor width height).run ops).is_visible_ = false ↔
      (((StandbyScreen.ctor width height).run ops).container_ = none ∧
        ((StandbyScreen.ctor width height).run ops).date_label_ = none ∧
        ((StandbyScreen.ctor width height).run ops).weekday_label_ = none ∧
        ((StandbyScreen.ctor width height).run ops).time_label_ = none ∧
        ((StandbyScreen.ctor width height).run ops).temperature_label_ = none ∧
        ((StandbyScreen.ctor width height).run ops).humidity_label_ = none)) := by
  have h := reachable_widgets width height ops
  unfold StandbyScreen.widgetsPresent StandbyScreen.widgetsNull at h
  rcases h with ⟨hv, hp⟩ | ⟨hv, hn⟩
  · refine ⟨⟨fun _ => hp, fun _ => hv⟩, ⟨fun hf => ?_, fun hf => ?_⟩⟩
    · rw [hv] at hf
      exact absurd hf (by decide)
    · exact absurd hf.1 hp.1
  · refine ⟨⟨fun ht => ?_, fun hf => ?_⟩, ⟨fun _ => hn, fun _ => hv⟩⟩
    · rw [hv] at ht
      exact absurd ht (by decide)
    · exact absurd hn.1 hf.1

/-! ## Rendering of temperature and humidity -/

theorem fmt_1f_eq (x : ℚ) :
    fmt_1f x = (if x < 0 then "-" else "") ++ toString (round_tenths x / 10) ++ "." ++
      toString (round_tenths x % 10) := rfl

theorem floor_tenths (a : ℚ) (ha : 0 ≤ a) :
    ((a.num.toNat / a.den : ℕ) : ℚ) ≤ a ∧ a < ((a.num.toNat / a.den : ℕ) : ℚ) + 1 :=
  floor_nat a ha

theorem round_tenths_spec (x : ℚ) : |((round_tenths x : ℕ) : ℚ) / 10 - abs x| ≤ 1 / 20 := by
  have ha : (0 : ℚ) ≤ |x| * 10 := by positivity
  obtain ⟨h1, h2⟩ := floor_tenths (|x| * 10) ha
  unfold round_tenths
  simp only
  rw [abs_le]
  split_ifs with c1 c2 c3
  · constructor <;> linarith
  · push_cast
    constructor <;> linarith
  · push_neg at c1 c2
    constructor <;> linarith
  · push_neg at c1 c2
    push_cast
    constructor <;> linarith

theorem digit_data (d : ℕ) (h : d < 10) : ∃ c : Char, (toString d).data = [c] ∧ c ≠ '-' := by
  interval_cases d <;> exact ⟨_, rfl, by decide⟩

/-- A text that ends in the `%.1f` conversion of a number ends in a digit, so with a
unit appended it is never the placeholder with that unit. -/
theorem fmt_1f_not_dashes (p : String) (x : ℚ) (u : String) :
    p ++ fmt_1f x ++ u ≠ "--.-" ++ u := by
  intro h
  obtain ⟨c, hc, hne⟩ := digit_data (round_tenths x % 10) (Nat.mod_lt _ (by norm_num))
  have h1 := congrArg String.data h
  rw [fmt_1f_eq] at h1
  simp only [String.data_append, hc] at h1
  have h2 := List.append_cancel_right h1
  have h3 : (p.data ++ ((if x < 0 then "-" else "").data ++
      (toString (round_tenths x / 10)).data ++ ['.'])) ++ [c] = ['-', '-', '.'] ++ ['-'] := by
    have h5 : ['-', '-', '.'] ++ ['-'] = ['-', '-', '.', '-'] := rfl
    rw [h5, ← h2]
    simp only [List.append_assoc]
  have h4 := (List.append_inj' h3 rfl).2
  exact hne (List.head_eq_of_cons_eq h4)

theorem digitChar_size (d : ℕ) (h : d < 10) : (Nat.digitChar d).utf8Size = 1 := by
  interval_cases d <;> rfl

theorem toDigitsCore_ascii (f : ℕ) : ∀ (n : ℕ) (acc : List Char),
    (∀ c ∈ acc, c.utf8Size = 1) → ∀ c ∈ Nat.toDigitsCore 10 f n acc, c.utf8Size = 1 := by
  induction f with
  | zero => intro n acc h c hc; simpa [Nat.toDigitsCore] using h c hc
  | succ f ih =>
    intro n acc h c hc
    have hcons : ∀ c ∈ Nat.digitChar (n % 10) :: acc, c.utf8Size = 1 := by
      intro c hc
      rcases List.mem_cons.1 hc with rfl | hc
      · exact digitChar_size _ (Nat.mod_lt _ (by norm_num))
      · exact h c hc
    unfold Nat.toDigitsCore at hc
    simp only at hc
    split_ifs at hc with h0
    · exact hcons c hc
    · exact ih (n / 10) _ hcons c hc

theorem utf8Len_of_ascii (cs : List Char) (h : ∀ c ∈ cs, c.utf8Size = 1) :
    String.utf8Len cs = cs.length := by
  induction cs with
  | nil => rfl
  | cons c cs ih =>
    rw [String.utf8Len_cons, ih (fun d hd => h d (List.mem_cons_of_mem _ hd)),
      h c (List.mem_cons_self _ _), List.length_cons]

theorem repr_bytes (n e : ℕ) (he : 0 < e) (hn : n < 10 ^ e) :
    (toString n).utf8ByteSize ≤ e := by
  have hlen := Nat.repr_length n e he hn
  have hascii : ∀ c ∈ (Nat.repr n).data, c.utf8Size = 1 :=
    toDigitsCore_ascii _ _ [] (fun c hc => absurd hc (List.not_mem_nil c))
  show (Nat.repr n).utf8ByteSize ≤ e
  have : (Nat.repr n).utf8ByteSize = String.utf8Len (Nat.repr n).data := rfl
  rw [this, utf8Len_of_ascii _ hascii]
  exact hlen

theorem round_tenths_le (q : ℚ) (h : abs q < 10 ^ 24) : round_tenths q / 10 < 10 ^ 25 := by
  have hs := (abs_le.1 (round_tenths_spec q)).2
  have h1 : ((round_tenths q : ℕ) : ℚ) < ((10 ^ 25 + 1 : ℕ) : ℚ) := by
    push_cast
    linarith
  have h2 : round_tenths q < 10 ^ 25 + 1 := by exact_mod_cast h1
  omega

theorem utf8ByteSize_append (a b : String) :
    (a ++ b).utf8ByteSize = a.utf8ByteSize + b.utf8ByteSize := by
  show String.utf8Len (a ++ b).data = String.utf8Len a.data + String.utf8Len b.data
  rw [String.data_append, String.utf8Len_append]

/-- For a non-negative value below `10 ^ 24` the text printed by `%.1f` has at most `27`
bytes. -/
theorem fmt_1f_bytes (q : ℚ) (h0 : 0 ≤ q) (h : q < 10 ^ 24) :
    (fmt_1f q).utf8ByteSize ≤ 27 := by
  have habs : abs q < 10 ^ 24 := by rw [abs_of_nonneg h0]; exact h
  have h1 := repr_bytes (round_tenths q / 10) 25 (by norm_num) (round_tenths_le q habs)
  have h2 := repr_bytes (round_tenths q % 10) 1 (by norm_num)
    (by have := Nat.mod_lt (round_tenths q) (show 0 < 10 by norm_num); omega)
  have hsign : (if q < 0 then "-" else "").utf8ByteSize = 0 := by
    rw [if_neg (not_lt.2 h0)]
    rfl
  have hdot : ".".utf8ByteSize = 1 := by decide
  rw [fmt_1f_eq, utf8ByteSize_append, utf8ByteSize_append, utf8ByteSize_append, hsign, hdot]
  omega

theorem take_bytes_all (cs : List Char) : ∀ n : ℕ, String.utf8Len cs ≤ n →
    take_bytes n cs = cs := by
  induction cs with
  | nil => intro n _; rfl
  | cons c cs ih =>
    intro n h
    rw [String.utf8Len_cons] at h
    unfold take_bytes
    rw [if_pos (by omega), ih (n - c.utf8Size) (by omega)]

theorem take_bytes_le (cs : List Char) : ∀ n : ℕ, String.utf8Len (take_bytes n cs) ≤ n := by
  induction cs with
  | nil => intro n; exact Nat.zero_le n
  | cons c cs ih =>
    intro n
    unfold take_bytes
    split_ifs with h
    · rw [String.utf8Len_cons]
      have := ih (n - c.utf8Size)
      omega
    · exact Nat.zero_le n

/-- A text that fits the buffer is stored whole by `snprintf`. -/
theorem snprintf_fits (size : ℕ) (text : String) (h : text.utf8ByteSize ≤ size - 1) :
    snprintf size text = text := by
  unfold snprintf
  rw [take_bytes_all text.data (size - 1) h]

/-- The text stored by `snprintf` has at most `size - 1` bytes. -/
theorem snprintf_bytes (size : ℕ) (text : String) :
    (snprintf size text).utf8ByteSize ≤ size - 1 :=
  take_bytes_le text.data (size - 1)

/-- The `%.1f` conversion of a finite `float` below `10 ^ 24` in magnitude, with a unit
of at most three bytes, fits a 32-byte buffer and is stored whole. -/
theorem snprintf_finite (x : CFloat) (u : String) (hf : x.isFinite = true)
    (hx : x.absRat < 10 ^ 24) (hu : u.utf8ByteSize ≤ 3) :
    snprintf 32 (printf_1f x ++ u) = (if x.sign then "-" else "") ++ fmt_1f x.absRat ++ u := by
  have hp : printf_1f x = (if x.sign then "-" else "") ++ fmt_1f x.absRat := by
    unfold printf_1f
    rw [finite_not_nan x hf, finite_not_inf x hf]
    rfl
  have hsign : (if x.sign then "-" else "").utf8ByteSize ≤ 1 := by
    split_ifs <;> decide
  have hb := fmt_1f_bytes x.absRat (absRat_nonneg x) hx
  rw [hp]
  apply snprintf_fits
  rw [utf8ByteSize_append, utf8ByteSize_append]
  omega

theorem temp_buf_of_nan (x : CFloat) (h : x.isNaN = true) : temp_buf x = "--.-°C" := by
  unfold temp_buf
  rw [if_pos h]
  decide

theorem humi_buf_of_nan (x : CFloat) (h : x.isNaN = true) : humi_buf x = "--.-%" := by
  unfold humi_buf
  rw [if_pos h]
  decide

theorem temp_buf_of_finite (x : CFloat) (hf : x.isFinite = true) (hx : x.absRat < 10 ^ 24) :
    temp_buf x = (if x.sign then "-" else "") ++ fmt_1f x.absRat ++ "°C" := by
  unfold temp_buf
  rw [if_neg (by rw [finite_not_nan x hf]; decide), snprintf_finite x "°C" hf hx (by decide)]

theorem humi_buf_of_finite (x : CFloat) (hf : x.isFinite = true) (hx : x.absRat < 10 ^ 24) :
    humi_buf x = (if x.sign then "-" else "") ++ fmt_1f x.absRat ++ "%" := by
  unfold humi_buf
  rw [if_neg (by rw [finite_not_nan x hf]; decide), snprintf_finite x "%" hf hx (by decide)]

theorem inf_not_nan (x : CFloat) (h : x.isInf = true) : x.isNaN = false := by
  unfold CFloat.isInf at h
  unfold CFloat.isNaN
  simp only [decide_eq_true_eq] at h
  simp only [decide_eq_false_iff_not]
  omega

theorem printf_1f_of_inf (x : CFloat) (h : x.isInf = true) :
    printf_1f x = (if x.sign then "-inf" else "inf") := by
  unfold printf_1f
  rw [inf_not_nan x h, h]
  cases x.sign
  · simp only [Bool.false_eq_true, if_false, if_true]
    decide
  · simp only [Bool.false_eq_true, if_false, if_true]
    decide

theorem temp_buf_of_inf (x : CFloat) (h : x.isInf = true) :
    temp_buf x = (if x.sign then "-inf°C" else "inf°C") := by
  unfold temp_buf
  rw [if_neg (by rw [inf_not_nan x h]; decide), printf_1f_of_inf x h]
  cases x.sign <;> decide

theorem humi_buf_of_inf (x : CFloat) (h : x.isInf = true) :
    humi_buf x = (if x.sign then "-inf%" else "inf%") := by
  unfold humi_buf
  rw [if_neg (by rw [inf_not_nan x h]; decide), printf_1f_of_inf x h]
  cases x.sign <;> decide

theorem temp_buf_bytes (x : CFloat) : (temp_buf x).utf8ByteSize ≤ 31 := by
  unfold temp_buf
  split_ifs
  · exact snprintf_bytes 32 _
  · exact snprintf_bytes 32 _

theorem humi_buf_bytes (x : CFloat) : (humi_buf x).utf8ByteSize ≤ 31 := by
  unfold humi_buf
  split_ifs
  · exact snprintf_bytes 32 _
  · exact snprintf_bytes 32 _

/-- Evaluation of the two buffers at the two zeros: the sign of a negative zero is
printed. -/
theorem temp_buf_neg_zero :
    temp_buf (CFloat.zero true) = "-0.0°C" ∧ humi_buf (CFloat.zero true) = "-0.0%" ∧
    temp_buf (CFloat.zero false) = "0.0°C" := by
  decide!

/-- The labels written by `UpdateTemperatureHumidityUI` on a visible screen reached
from the constructor. -/
theorem visible_labels (width height : Int) (ops : List ScreenOp)
    (s : StandbyScreen) (hs : s = (StandbyScreen.ctor width height).run ops)
    (hv : s.is_visible_ = true) :
    s.UpdateTemperatureHumidityUI.temperature_label_ = some (temp_buf s.current_temperature_) ∧
    s.UpdateTemperatureHumidityUI.humidity_label_ = some (humi_buf s.current_humidity_) := by
  have hw : s.widgetsPresent := by
    rcases reachable_widgets width height ops with ⟨_, hp⟩ | ⟨hf, _⟩
    · rw [hs]; exact hp
    · rw [hs, hf] at hv
      exact absurd hv (by decide)
  obtain ⟨t, ht⟩ := Option.ne_none_iff_exists'.1 hw.2.2.2.2.1
  obtain ⟨u, hu⟩ := Option.ne_none_iff_exists'.1 hw.2.2.2.2.2
  constructor
  · simp [StandbyScreen.UpdateTemperatureHumidityUI, lv_label_set_text, hv, ht]
  · simp [StandbyScreen.UpdateTemperatureHumidityUI, lv_label_set_text, hv, ht, hu]

/-- C11 (as stated, refuted): `hugeScreen` is visible and holds the known (finite, not
NaN) temperature `1e30f`, whose value is `1000000015047466219876688855040`, and the
humidity `+infinity`, which is not NaN either.  `UpdateTemperatureHumidityUI` sets the
temperature label to the 31 digits "1000000015047466219876688855040", the first 31
bytes of "1000000015047466219876688855040.0°C": no decimal and no unit; and it sets the
humidity label to "inf%", which is no one-decimal number. -/
theorem C11_huge_value_loses_unit :
    hugeScreen.is_visible_ = true ∧
    hugeScreen.current_temperature_.isNaN = false ∧
    hugeScreen.current_temperature_.isFinite = true ∧
    hugeScreen.current_temperature_.toRat = 1000000015047466219876688855040 ∧
    printf_1f hugeScreen.current_temperature_ ++ "°C" =
      "1000000015047466219876688855040.0°C" ∧
    hugeScreen.UpdateTemperatureHumidityUI.temperature_label_ =
      some "1000000015047466219876688855040" ∧
    hugeScreen.current_humidity_.isNaN = false ∧
    hugeScreen.UpdateTemperatureHumidityUI.humidity_label_ = some "inf%" := by
  decide!

/-- C11 (amended): on a visible screen (any state reached from the constructor in which
`is_visible_` holds) `UpdateTemperatureHumidityUI` sets the temperature label to
"--.-°C" when `current_temperature_` is NaN and the humidity label to "--.-%" when
`current_humidity_` is NaN; each label is computed from its own field only; a finite
value below `10 ^ 24` in magnitude is rendered as its sign, its magnitude rounded to
the nearest tenth (printed with one decimal) and the unit, a text that is never the
placeholder; an infinity is rendered as "inf" or "-inf" followed by the unit; and in
every case the label holds at most 31 bytes, the 32-byte buffer cutting longer texts. -/
theorem C11_renders_placeholder_or_number (width height : Int) (ops : List ScreenOp)
    (s : StandbyScreen) (hs : s = (StandbyScreen.ctor width height).run ops)
    (hv : s.is_visible_ = true) :
    (s.current_temperature_.isNaN = true →
      s.UpdateTemperatureHumidityUI.temperature_label_ = some "--.-°C") ∧
    (s.current_humidity_.isNaN = true →
      s.UpdateTemperatureHumidityUI.humidity_label_ = some "--.-%") ∧
    s.UpdateTemperatureHumidityUI.temperature_label_ = some (temp_buf s.current_temperature_) ∧
    s.UpdateTemperatureHumidityUI.humidity_label_ = some (humi_buf s.current_humidity_) ∧
    (s.current_temperature_.isFinite = true → s.current_temperature_.absRat < 10 ^ 24 →
      s.UpdateTemperatureHumidityUI.temperature_label_ =
        some ((if s.current_temperature_.sign then "-" else "") ++
          fmt_1f s.current_temperature_.absRat ++ "°C") ∧
      (if s.current_temperature_.sign then "-" else "") ++
          fmt_1f s.current_temperature_.absRat ++ "°C" ≠ "--.-°C") ∧
    (s.current_humidity_.isFinite = true → s.current_humidity_.absRat < 10 ^ 24 →
      s.UpdateTemperatureHumidityUI.humidity_label_ =
        some ((if s.current_humidity_.sign then "-" else "") ++
          fmt_1f s.current_humidity_.absRat ++ "%") ∧
      (if s.current_humidity_.sign then "-" else "") ++
          fmt_1f s.current_humidity_.absRat ++ "%" ≠ "--.-%") ∧
    (∀ q : ℚ,
      fmt_1f q = (if q < 0 then "-" else "") ++ toString (round_tenths q / 10) ++ "." ++
        toString (round_tenths q % 10) ∧
      |((round_tenths q : ℕ) : ℚ) / 10 - abs q| ≤ 1 / 20) ∧
    (s.current_temperature_.isInf = true →
      s.UpdateTemperatureHumidityUI.temperature_label_ =
        some (if s.current_temperature_.sign then "-inf°C" else "inf°C")) ∧
    (s.current_humidity_.isInf = true →
      s.UpdateTemperatureHumidityUI.humidity_label_ =
        some (if s.current_humidity_.sign then "-inf%" else "inf%")) ∧
    (∀ text, s.UpdateTemperatureHumidityUI.temperature_label_ = some text →
      text.utf8ByteSize ≤ 31) ∧
    (∀ text, s.UpdateTemperatureHumidityUI.humidity_label_ = some text →
      text.utf8ByteSize ≤ 31) := by
  obtain ⟨hT, hH⟩ := visible_labels width height ops s hs hv
  refine ⟨fun hn => ?_, fun hn => ?_, hT, hH, fun hf hx => ⟨?_, fmt_1f_not_dashes _ _ "°C"⟩,
    fun hf hx => ⟨?_, fmt_1f_not_dashes _ _ "%"⟩,
    fun q => ⟨fmt_1f_eq q, round_tenths_spec q⟩, fun hi => ?_, fun hi => ?_,
    fun text ht => ?_, fun text ht => ?_⟩
  · rw [hT, temp_buf_of_nan _ hn]
  · rw [hH, humi_buf_of_nan _ hn]
  · rw [hT, temp_buf_of_finite _ hf hx]
  · rw [hH, humi_buf_of_finite _ hf hx]
  · rw [hT, temp_buf_of_inf _ hi]
  · rw [hH, humi_buf_of_inf _ hi]
  · rw [hT] at ht
    rw [← Option.some.inj ht]
    exact temp_buf_bytes _
  · rw [hH] at ht
    rw [← Option.some.inj ht]
    exact humi_buf_bytes _

/-- Witness for C11 (amended): `halfKnownScreen`, visible with an unknown temperature
and a humidity of 50 %, shows "--.-°C" and "50.0%" after the update. -/
theorem C11_renders_placeholder_or_number_witness :
    halfKnownScreen.is_visible_ = true ∧
    halfKnownScreen.current_temperature_.isNaN = true ∧
    halfKnownScreen.UpdateTemperatureHumidityUI.temperature_label_ = some "--.-°C" ∧
    halfKnownScreen.current_humidity_.isFinite = true ∧
    halfKnownScreen.current_humidity_.absRat < 10 ^ 24 ∧
    halfKnownScreen.UpdateTemperatureHumidityUI.humidity_label_ = some "50.0%" := by
  have h := C11_renders_placeholder_or_number 128 64
    [ScreenOp.Show, ScreenOp.UpdateTemperatureHumidity CFloat.nan (CFloat.num 50)]
    halfKnownScreen rfl rfl
  have hf : halfKnownScreen.current_humidity_.isFinite = true := by decide!
  have hx : halfKnownScreen.current_humidity_.absRat < 10 ^ 24 := by decide!
  refine ⟨rfl, by decide!, h.1 (by decide!), hf, hx, ?_⟩
  rw [(h.2.2.2.2.2.1 hf hx).1]
  decide!

end Standby
